import Mathlib

/-!
# gdal vector geom-op set-type

A shallow embedding of `apps/gdalalg_vector_geom_op_set_type.cpp`: the option block of the
step, the geometry-type conversion `ConvertType`, the per-feature translation
`TranslateFeature`, the layer constructor, `GetFeatureCount`, `TestCapability` and `RunStep`,
followed by the properties proved about them.

Geometry types are the numeric values of the C enum `OGRwkbGeometryType`, strings are lists
of characters.  The OGR library functions the file calls (`OGR_GT_*`, `OGRFromOGCGeomType`)
are gathered in the record `OGRTypeApi`, so that every function of the file is stated once
for arbitrary library functions and once for the library model `ogr`.
-/

set_option maxRecDepth 100000

namespace GdalSetType

/-! ## Geometry type codes -/

/-- The C enum `OGRwkbGeometryType`, by numeric value (an unsigned 32-bit integer). -/
abbrev OGRwkbGeometryType := Nat

/-- A C string or `std::string`, as its list of characters. -/
abbrev CString := List Char

/-- Modelled from the spec: enumerator of `OGRwkbGeometryType` (`ogr_core.h`, outside the
embedded file): the generic type, "unknown/generic". -/
def wkbUnknown : OGRwkbGeometryType := 0

/-- Modelled from the spec: enumerator of `OGRwkbGeometryType` (`ogr_core.h`, outside the
embedded file): point. -/
def wkbPoint : OGRwkbGeometryType := 1

/-- Modelled from the spec: enumerator of `OGRwkbGeometryType` (`ogr_core.h`, outside the
embedded file): line string. -/
def wkbLineString : OGRwkbGeometryType := 2

/-- Modelled from the spec: enumerator of `OGRwkbGeometryType` (`ogr_core.h`, outside the
embedded file): polygon. -/
def wkbPolygon : OGRwkbGeometryType := 3

/-- Modelled from the spec: enumerator of `OGRwkbGeometryType` (`ogr_core.h`, outside the
embedded file): multi-point. -/
def wkbMultiPoint : OGRwkbGeometryType := 4

/-- Modelled from the spec: enumerator of `OGRwkbGeometryType` (`ogr_core.h`, outside the
embedded file): multi-line-string. -/
def wkbMultiLineString : OGRwkbGeometryType := 5

/-- Modelled from the spec: enumerator of `OGRwkbGeometryType` (`ogr_core.h`, outside the
embedded file): multi-polygon. -/
def wkbMultiPolygon : OGRwkbGeometryType := 6

/-- Modelled from the spec: enumerator of `OGRwkbGeometryType` (`ogr_core.h`, outside the
embedded file): the generic collection. -/
def wkbGeometryCollection : OGRwkbGeometryType := 7

/-- Modelled from the spec: enumerator of `OGRwkbGeometryType` (`ogr_core.h`, outside the
embedded file): circular string, a curve. -/
def wkbCircularString : OGRwkbGeometryType := 8

/-- Modelled from the spec: enumerator of `OGRwkbGeometryType` (`ogr_core.h`, outside the
embedded file): compound curve. -/
def wkbCompoundCurve : OGRwkbGeometryType := 9

/-- Modelled from the spec: enumerator of `OGRwkbGeometryType` (`ogr_core.h`, outside the
embedded file): curve polygon. -/
def wkbCurvePolygon : OGRwkbGeometryType := 10

/-- Modelled from the spec: enumerator of `OGRwkbGeometryType` (`ogr_core.h`, outside the
embedded file): multi-curve. -/
def wkbMultiCurve : OGRwkbGeometryType := 11

/-- Modelled from the spec: enumerator of `OGRwkbGeometryType` (`ogr_core.h`, outside the
embedded file): multi-surface. -/
def wkbMultiSurface : OGRwkbGeometryType := 12

/-- Modelled from the spec: enumerator of `OGRwkbGeometryType` (`ogr_core.h`, outside the
embedded file): the abstract curve. -/
def wkbCurve : OGRwkbGeometryType := 13

/-- Modelled from the spec: enumerator of `OGRwkbGeometryType` (`ogr_core.h`, outside the
embedded file): the abstract surface. -/
def wkbSurface : OGRwkbGeometryType := 14

/-- Modelled from the spec: enumerator of `OGRwkbGeometryType` (`ogr_core.h`, outside the
embedded file): polyhedral surface. -/
def wkbPolyhedralSurface : OGRwkbGeometryType := 15

/-- Modelled from the spec: enumerator of `OGRwkbGeometryType` (`ogr_core.h`, outside the
embedded file): triangulated network. -/
def wkbTIN : OGRwkbGeometryType := 16

/-- Modelled from the spec: enumerator of `OGRwkbGeometryType` (`ogr_core.h`, outside the
embedded file): triangle. -/
def wkbTriangle : OGRwkbGeometryType := 17

/-- Modelled from the spec: enumerator of `OGRwkbGeometryType` (`ogr_core.h`, outside the
embedded file): the marker for "no geometry". -/
def wkbNone : OGRwkbGeometryType := 100

/-- Modelled from the spec: enumerator of `OGRwkbGeometryType` (`ogr_core.h`, outside the
embedded file): linear ring, internal to the library. -/
def wkbLinearRing : OGRwkbGeometryType := 101


/-- Modelled from the spec: the constant `wkb25DBitInternalUse` (`ogr_core.h`, outside the
embedded file), the bit `0x80000000` that carries "Z present" on the first eight types. -/
def wkb25DBitInternalUse : Nat := 2147483648

/-! ## The OGR library functions used by the file -/

/-- The geometry-type functions of the OGR library that the file calls.  Their
implementation is not part of the embedded file, whose functions take them as a parameter. -/
structure OGRTypeApi where
  OGR_GT_Flatten : OGRwkbGeometryType → OGRwkbGeometryType
  OGR_GT_HasZ : OGRwkbGeometryType → Bool
  OGR_GT_HasM : OGRwkbGeometryType → Bool
  OGR_GT_SetZ : OGRwkbGeometryType → OGRwkbGeometryType
  OGR_GT_SetM : OGRwkbGeometryType → OGRwkbGeometryType
  OGR_GT_IsSubClassOf : OGRwkbGeometryType → OGRwkbGeometryType → Bool
  OGR_GT_GetCollection : OGRwkbGeometryType → OGRwkbGeometryType
  OGR_GT_GetSingle : OGRwkbGeometryType → OGRwkbGeometryType
  OGR_GT_GetLinear : OGRwkbGeometryType → OGRwkbGeometryType
  OGR_GT_GetCurve : OGRwkbGeometryType → OGRwkbGeometryType
  OGRFromOGCGeomType : CString → OGRwkbGeometryType

/-- Modelled from the spec: the library shorthand `wkbFlatten(x)` (`ogr_core.h`, outside the
embedded file) for `OGR_GT_Flatten(x)`, "stripping Z/M dimensionality bits". -/
def wkbFlatten (api : OGRTypeApi) (eType : OGRwkbGeometryType) : OGRwkbGeometryType :=
  api.OGR_GT_Flatten eType

/-! ## Options -/

/-- The block `GDALVectorGeomOpSetTypeAlgorithm::Options` (fields as the file uses them). -/
structure Options where
  m_layerOnly : Bool
  m_featureGeomOnly : Bool
  m_geomField : CString
  m_type : CString
  m_eType : OGRwkbGeometryType
  m_multi : Bool
  m_single : Bool
  m_linear : Bool
  m_curve : Bool
  m_xy : Bool
  m_xyz : Bool
  m_xym : Bool
  m_xyzm : Bool
  m_skip : Bool

/-- Options as they are before any argument is given: everything off, no explicit type. -/
def Options.default : Options :=
  { m_layerOnly := false, m_featureGeomOnly := false, m_geomField := [], m_type := [],
    m_eType := wkbUnknown, m_multi := false, m_single := false, m_linear := false,
    m_curve := false, m_xy := false, m_xyz := false, m_xym := false, m_xyzm := false,
    m_skip := false }

/-! ## ConvertType -/

/-- The cardinality step of `ConvertType` (the `m_multi` / `m_single` block). -/
def ConvertType.cardinality (api : OGRTypeApi) (m_opts : Options)
    (eRetType : OGRwkbGeometryType) : OGRwkbGeometryType :=
  if m_opts.m_multi then
    if eRetType = wkbTriangle ∨ eRetType = wkbTIN ∨ eRetType = wkbPolyhedralSurface then
      wkbMultiPolygon
    else if !api.OGR_GT_IsSubClassOf eRetType wkbGeometryCollection then
      api.OGR_GT_GetCollection eRetType
    else
      eRetType
  else if m_opts.m_single then
    api.OGR_GT_GetSingle eRetType
  else
    eRetType

/-- The linear/curve step of `ConvertType` (the `m_linear` / `m_curve` block). -/
def ConvertType.curvature (api : OGRTypeApi) (m_opts : Options)
    (eRetType : OGRwkbGeometryType) : OGRwkbGeometryType :=
  if m_opts.m_linear then
    api.OGR_GT_GetLinear eRetType
  else if m_opts.m_curve then
    api.OGR_GT_GetCurve eRetType
  else
    eRetType

/-- The dimension step of `ConvertType` (the `m_xy` / `m_xyz` / `m_xym` / `m_xyzm` block). -/
def ConvertType.dimension (api : OGRTypeApi) (m_opts : Options)
    (eRetType : OGRwkbGeometryType) : OGRwkbGeometryType :=
  if m_opts.m_xy then
    api.OGR_GT_Flatten eRetType
  else if m_opts.m_xyz then
    api.OGR_GT_SetZ (api.OGR_GT_Flatten eRetType)
  else if m_opts.m_xym then
    api.OGR_GT_SetM (api.OGR_GT_Flatten eRetType)
  else if m_opts.m_xyzm then
    api.OGR_GT_SetZ (api.OGR_GT_SetM (api.OGR_GT_Flatten eRetType))
  else
    eRetType

/-- The method `GDALVectorGeomOpSetTypeAlgorithmLayer::ConvertType`: the explicit type when one
is given, otherwise the source type taken through the cardinality, linear/curve and dimension
steps in that order. -/
def ConvertType (api : OGRTypeApi) (m_opts : Options) (eType : OGRwkbGeometryType) :
    OGRwkbGeometryType :=
  if !m_opts.m_type.isEmpty then
    m_opts.m_eType
  else
    ConvertType.dimension api m_opts
      (ConvertType.curvature api m_opts (ConvertType.cardinality api m_opts eType))

/-! ## The library model

The functions of the OGR library that `ConvertType` and `RunStep` call, on the numeric
encoding of `OGRwkbGeometryType`.  Each follows the primitive the specification names
(flatten, set dimension, collection/multi mapping, single-ization, linear/curve mapping) and,
where the specification leaves the value open, the behaviour the library documents for the
function.
-/

/-- Modelled from the spec: `OGR_GT_Flatten` of `ogr/ogrgeometry.cpp` is not part of the
embedded file.  The glossary calls flattening "stripping Z/M dimensionality bits from a
geometry type, yielding its base 2D form"; on the enum encoding this clears the 2.5D bit and
removes the ISO offsets 1000 (Z), 2000 (M), 3000 (ZM). -/
def OGR_GT_Flatten (eType : OGRwkbGeometryType) : OGRwkbGeometryType :=
  let eType := eType &&& 2147483647
  if 1000 ≤ eType ∧ eType < 2000 then eType - 1000
  else if 2000 ≤ eType ∧ eType < 3000 then eType - 2000
  else if 3000 ≤ eType ∧ eType < 4000 then eType - 3000
  else eType

/-- Modelled from the spec: `OGR_GT_HasZ` of `ogr/ogrgeometry.cpp` is not part of the embedded
file.  It reads the "Z present" bit of the data model: the 2.5D bit, or an ISO code in the
Z or ZM range. -/
def OGR_GT_HasZ (eType : OGRwkbGeometryType) : Bool :=
  if eType &&& wkb25DBitInternalUse ≠ 0 then true
  else if 1000 ≤ eType ∧ eType < 2000 then true
  else if 3000 ≤ eType ∧ eType < 4000 then true
  else false

/-- Modelled from the spec: `OGR_GT_HasM` of `ogr/ogrgeometry.cpp` is not part of the embedded
file.  It reads the "M present" bit of the data model: an ISO code in the M or ZM range. -/
def OGR_GT_HasM (eType : OGRwkbGeometryType) : Bool :=
  if 2000 ≤ eType ∧ eType < 3000 then true
  else if 3000 ≤ eType ∧ eType < 4000 then true
  else false

/-- Modelled from the spec: `OGR_GT_SetZ` of `ogr/ogrgeometry.cpp` is not part of the embedded
file.  It is the "force Z present" primitive of the dimension step: a type that has Z, or the
no-geometry marker `wkbNone`, is returned as it is; the first eight types take the 2.5D bit,
every other code moves up by the ISO offset 1000. -/
def OGR_GT_SetZ (eType : OGRwkbGeometryType) : OGRwkbGeometryType :=
  if OGR_GT_HasZ eType ∨ eType = wkbNone then eType
  else if eType ≤ wkbGeometryCollection then eType ||| wkb25DBitInternalUse
  else eType + 1000

/-- Modelled from the spec: `OGR_GT_SetM` of `ogr/ogrgeometry.cpp` is not part of the embedded
file.  It is the "force M present" primitive of the dimension step: a type that has M, or
`wkbNone`, is returned as it is; a 2.5D code is first rewritten to its ISO Z code, then the
ISO offset 2000 is added. -/
def OGR_GT_SetM (eType : OGRwkbGeometryType) : OGRwkbGeometryType :=
  if OGR_GT_HasM eType ∨ eType = wkbNone then eType
  else if eType &&& wkb25DBitInternalUse ≠ 0 then (eType &&& 2147483647) + 1000 + 2000
  else eType + 2000

/-- Modelled from the spec: `OGR_GT_IsSubClassOf` of `ogr/ogrgeometry.cpp` is not part of the
embedded file.  It decides "is a subclass of" on the flattened types, following the class
hierarchy of the geometry model (every type is a subclass of itself and of the generic
type; the five multi types are the subclasses of the generic collection). -/
def OGR_GT_IsSubClassOf (eType eSuperType : OGRwkbGeometryType) : Bool :=
  let eSuperType := OGR_GT_Flatten eSuperType
  let eType := OGR_GT_Flatten eType
  if eSuperType = eType ∨ eSuperType = wkbUnknown then true
  else if eSuperType = wkbGeometryCollection then
    eType = wkbMultiPoint ∨ eType = wkbMultiLineString ∨ eType = wkbMultiPolygon ∨
      eType = wkbMultiCurve ∨ eType = wkbMultiSurface
  else if eSuperType = wkbCurvePolygon then eType = wkbPolygon ∨ eType = wkbTriangle
  else if eSuperType = wkbMultiCurve then eType = wkbMultiLineString
  else if eSuperType = wkbMultiSurface then eType = wkbMultiPolygon
  else if eSuperType = wkbCurve then
    eType = wkbLineString ∨ eType = wkbCircularString ∨ eType = wkbCompoundCurve
  else if eSuperType = wkbSurface then
    eType = wkbCurvePolygon ∨ eType = wkbPolygon ∨ eType = wkbTriangle ∨
      eType = wkbPolyhedralSurface ∨ eType = wkbTIN
  else if eSuperType = wkbPolygon then eType = wkbTriangle
  else if eSuperType = wkbPolyhedralSurface then eType = wkbTIN
  else false

/-- Modelled from the spec: `OGR_GT_IsCurve` of `ogr/ogrgeometry.cpp` is not part of the
embedded file.  The "curve variants": the subclasses of `wkbCurve`. -/
def OGR_GT_IsCurve (eType : OGRwkbGeometryType) : Bool :=
  OGR_GT_IsSubClassOf eType wkbCurve

/-- Modelled from the spec: `OGR_GT_IsSurface` of `ogr/ogrgeometry.cpp` is not part of the
embedded file.  The "surface variants": the subclasses of `wkbSurface`. -/
def OGR_GT_IsSurface (eType : OGRwkbGeometryType) : Bool :=
  OGR_GT_IsSubClassOf eType wkbSurface

/-- Modelled from the spec: the common tail of the four mapping functions below, which are
not part of the embedded file.  It puts back the Z and M bits that the function saved before
it replaced the base shape, so that the mapping preserves the two bits. -/
def restoreDims (bHasZ bHasM : Bool) (eType : OGRwkbGeometryType) : OGRwkbGeometryType :=
  let eType := if bHasZ then OGR_GT_SetZ eType else eType
  if bHasM then OGR_GT_SetM eType else eType

/-- Modelled from the spec: `OGR_GT_GetCollection` of `ogr/ogrgeometry.cpp` is not part of the
embedded file.  It is the "collection/multi mapping" primitive, "the geometry type
representing a set of same-family shapes (e.g., multi-polygon for polygons)": point,
line string and polygon go to their multi type, a triangle to a TIN, any other curve to
multi-curve, any other surface to multi-surface, with the Z and M bits of the argument; a type
with no collection form gives plain `wkbUnknown`. -/
def OGR_GT_GetCollection (eType : OGRwkbGeometryType) : OGRwkbGeometryType :=
  let bHasZ := OGR_GT_HasZ eType
  let bHasM := OGR_GT_HasM eType
  if eType = wkbNone then wkbNone
  else
    let eFGType := OGR_GT_Flatten eType
    if eFGType = wkbPoint then restoreDims bHasZ bHasM wkbMultiPoint
    else if eFGType = wkbLineString then restoreDims bHasZ bHasM wkbMultiLineString
    else if eFGType = wkbPolygon then restoreDims bHasZ bHasM wkbMultiPolygon
    else if eFGType = wkbTriangle then restoreDims bHasZ bHasM wkbTIN
    else if OGR_GT_IsCurve eFGType then restoreDims bHasZ bHasM wkbMultiCurve
    else if OGR_GT_IsSurface eFGType then restoreDims bHasZ bHasM wkbMultiSurface
    else wkbUnknown

/-- Modelled from the spec: `OGR_GT_GetSingle` of `ogr/ogrgeometry.cpp` is not part of the
embedded file.  It is the "single-ization" primitive, which strips "multiplicity to the
single-geometry equivalent": multi-point, multi-line-string and multi-polygon go to their
member type, multi-curve to compound curve, multi-surface to curve polygon, with the Z and M
bits of the argument; the generic collection gives plain `wkbUnknown`; any other type is
returned as it is. -/
def OGR_GT_GetSingle (eType : OGRwkbGeometryType) : OGRwkbGeometryType :=
  let bHasZ := OGR_GT_HasZ eType
  let bHasM := OGR_GT_HasM eType
  if eType = wkbNone then wkbNone
  else
    let eFGType := OGR_GT_Flatten eType
    if eFGType = wkbMultiPoint then restoreDims bHasZ bHasM wkbPoint
    else if eFGType = wkbMultiLineString then restoreDims bHasZ bHasM wkbLineString
    else if eFGType = wkbMultiPolygon then restoreDims bHasZ bHasM wkbPolygon
    else if eFGType = wkbMultiCurve then restoreDims bHasZ bHasM wkbCompoundCurve
    else if eFGType = wkbMultiSurface then restoreDims bHasZ bHasM wkbCurvePolygon
    else if eFGType = wkbGeometryCollection then wkbUnknown
    else restoreDims bHasZ bHasM eType

/-- Modelled from the spec: `OGR_GT_GetLinear` of `ogr/ogrgeometry.cpp` is not part of the
embedded file.  It is the "linear mapping" primitive, which flattens "curve shapes to their
linear equivalents": a curve goes to line string, a surface to polygon, multi-curve to
multi-line-string, multi-surface to multi-polygon, with the Z and M bits of the argument; any
other type is returned as it is. -/
def OGR_GT_GetLinear (eType : OGRwkbGeometryType) : OGRwkbGeometryType :=
  let bHasZ := OGR_GT_HasZ eType
  let bHasM := OGR_GT_HasM eType
  let eFGType := OGR_GT_Flatten eType
  if OGR_GT_IsCurve eFGType then restoreDims bHasZ bHasM wkbLineString
  else if OGR_GT_IsSurface eFGType then restoreDims bHasZ bHasM wkbPolygon
  else if eFGType = wkbMultiCurve then restoreDims bHasZ bHasM wkbMultiLineString
  else if eFGType = wkbMultiSurface then restoreDims bHasZ bHasM wkbMultiPolygon
  else restoreDims bHasZ bHasM eType

/-- Modelled from the spec: `OGR_GT_GetCurve` of `ogr/ogrgeometry.cpp` is not part of the
embedded file.  It is the "curve mapping" primitive, which promotes "linear shapes to their
curve equivalents": line string goes to compound curve, polygon and triangle to curve
polygon, multi-line-string to multi-curve, multi-polygon to multi-surface, with the Z and M
bits of the argument; any other type is returned as it is. -/
def OGR_GT_GetCurve (eType : OGRwkbGeometryType) : OGRwkbGeometryType :=
  let bHasZ := OGR_GT_HasZ eType
  let bHasM := OGR_GT_HasM eType
  let eFGType := OGR_GT_Flatten eType
  if eFGType = wkbLineString then restoreDims bHasZ bHasM wkbCompoundCurve
  else if eFGType = wkbPolygon then restoreDims bHasZ bHasM wkbCurvePolygon
  else if eFGType = wkbTriangle then restoreDims bHasZ bHasM wkbCurvePolygon
  else if eFGType = wkbMultiLineString then restoreDims bHasZ bHasM wkbMultiCurve
  else if eFGType = wkbMultiPolygon then restoreDims bHasZ bHasM wkbMultiSurface
  else restoreDims bHasZ bHasM eType

/-! ## Strings -/

/-- Modelled from the spec: the library shorthand `STARTS_WITH(a, b)` (`cpl_port.h`, outside
the embedded file): `a` starts with `b`, that is `strncmp(a, b, strlen(b)) == 0`. -/
def STARTS_WITH : CString → CString → Bool
  | _, [] => true
  | [], _ :: _ => false
  | a :: as, b :: bs => a == b && STARTS_WITH as bs

/-- Modelled from the spec: the library shorthand `STARTS_WITH_CI(a, b)` (`cpl_port.h`, outside
the embedded file): `a` starts with `b`, ignoring the case of ASCII letters, that is
`strncasecmp(a, b, strlen(b)) == 0`. -/
def STARTS_WITH_CI : CString → CString → Bool
  | _, [] => true
  | [], _ :: _ => false
  | a :: as, b :: bs => a.toUpper == b.toUpper && STARTS_WITH_CI as bs

/-- Modelled from the spec: `OGRFromOGCGeomType` of the OGR library is not part of the
embedded file.  It parses "one of a fixed vocabulary of base shape names optionally suffixed
with Z/M/ZM": the base shape is the first name of its table that the string starts with
(ignoring case), the generic type when there is none; a final `M` asks for M, and a `Z` in
last position (or just before the final `M`) asks for Z. -/
def OGRFromOGCGeomType (pszGeomType : CString) : OGRwkbGeometryType :=
  let last := pszGeomType.reverse.head?
  let bIsMeasured := last = some 'm' ∨ last = some 'M'
  let ch := if bIsMeasured ∧ 1 < pszGeomType.length then pszGeomType.reverse.tail.head? else last
  let bConvertTo3D := ch = some 'z' ∨ ch = some 'Z'
  let eType :=
    if STARTS_WITH_CI pszGeomType ['P','O','I','N','T'] then wkbPoint
    else if STARTS_WITH_CI pszGeomType ['L','I','N','E','S','T','R','I','N','G'] then
      wkbLineString
    else if STARTS_WITH_CI pszGeomType ['P','O','L','Y','G','O','N'] then wkbPolygon
    else if STARTS_WITH_CI pszGeomType ['M','U','L','T','I','P','O','I','N','T'] then
      wkbMultiPoint
    else if STARTS_WITH_CI pszGeomType
        ['M','U','L','T','I','L','I','N','E','S','T','R','I','N','G'] then
      wkbMultiLineString
    else if STARTS_WITH_CI pszGeomType ['M','U','L','T','I','P','O','L','Y','G','O','N'] then
      wkbMultiPolygon
    else if STARTS_WITH_CI pszGeomType
        ['G','E','O','M','E','T','R','Y','C','O','L','L','E','C','T','I','O','N'] then
      wkbGeometryCollection
    else if STARTS_WITH_CI pszGeomType
        ['C','I','R','C','U','L','A','R','S','T','R','I','N','G'] then
      wkbCircularString
    else if STARTS_WITH_CI pszGeomType ['C','O','M','P','O','U','N','D','C','U','R','V','E'] then
      wkbCompoundCurve
    else if STARTS_WITH_CI pszGeomType ['C','U','R','V','E','P','O','L','Y','G','O','N'] then
      wkbCurvePolygon
    else if STARTS_WITH_CI pszGeomType ['M','U','L','T','I','C','U','R','V','E'] then
      wkbMultiCurve
    else if STARTS_WITH_CI pszGeomType ['M','U','L','T','I','S','U','R','F','A','C','E'] then
      wkbMultiSurface
    else if STARTS_WITH_CI pszGeomType ['T','R','I','A','N','G','L','E'] then wkbTriangle
    else if STARTS_WITH_CI pszGeomType
        ['P','O','L','Y','H','E','D','R','A','L','S','U','R','F','A','C','E'] then
      wkbPolyhedralSurface
    else if STARTS_WITH_CI pszGeomType ['T','I','N'] then wkbTIN
    else if STARTS_WITH_CI pszGeomType ['C','U','R','V','E'] then wkbCurve
    else if STARTS_WITH_CI pszGeomType ['S','U','R','F','A','C','E'] then wkbSurface
    else wkbUnknown
  let eType := if bConvertTo3D then OGR_GT_SetZ eType else eType
  if bIsMeasured then OGR_GT_SetM eType else eType

/-- The library model: the functions above, as the parameter of the embedded file. -/
def ogr : OGRTypeApi :=
  { OGR_GT_Flatten := OGR_GT_Flatten
    OGR_GT_HasZ := OGR_GT_HasZ
    OGR_GT_HasM := OGR_GT_HasM
    OGR_GT_SetZ := OGR_GT_SetZ
    OGR_GT_SetM := OGR_GT_SetM
    OGR_GT_IsSubClassOf := OGR_GT_IsSubClassOf
    OGR_GT_GetCollection := OGR_GT_GetCollection
    OGR_GT_GetSingle := OGR_GT_GetSingle
    OGR_GT_GetLinear := OGR_GT_GetLinear
    OGR_GT_GetCurve := OGR_GT_GetCurve
    OGRFromOGCGeomType := OGRFromOGCGeomType }

/-- Modelled from the spec: the enumerators of `OGRwkbGeometryType` (`ogr_core.h`) are not part
of the embedded file.  The base shapes of the data model: "point, linestring, polygon,
multi-variants, collection, curve variants, surface variants, unknown/generic". -/
def baseShapes : List OGRwkbGeometryType :=
  [wkbUnknown, wkbPoint, wkbLineString, wkbPolygon, wkbMultiPoint, wkbMultiLineString,
    wkbMultiPolygon, wkbGeometryCollection, wkbCircularString, wkbCompoundCurve,
    wkbCurvePolygon, wkbMultiCurve, wkbMultiSurface, wkbCurve, wkbSurface,
    wkbPolyhedralSurface, wkbTIN, wkbTriangle]

/-- Modelled from the spec: the enumerators of `OGRwkbGeometryType` (`ogr_core.h`) are not part
of the embedded file.  A geometry type is "a base shape ... with two independent
dimensionality bits (Z present, M present)": every base shape in its 2D, Z, M and ZM
variant, 72 codes in all.  The markers `wkbNone` (no geometry) and `wkbLinearRing` (never the
type of a field or of a value) are not geometry types in this sense. -/
def geometryTypes : List OGRwkbGeometryType :=
  baseShapes.flatMap fun b =>
    [b, OGR_GT_SetZ b, OGR_GT_SetM b, OGR_GT_SetZ (OGR_GT_SetM b)]

/-! ## Layers, features and geometries -/

/-- A geometry value (`OGRGeometry`): its type as `getGeometryType()` reports it, the spatial
reference assigned to it, and its coordinates, which the file never inspects. -/
structure OGRGeometry where
  geometryType : OGRwkbGeometryType
  spatialReference : Option Nat
  coordinates : List Int
  deriving DecidableEq, Repr

/-- A geometry field definition (`OGRGeomFieldDefn`): name, declared type, spatial reference. -/
structure OGRGeomFieldDefn where
  name : CString
  type : OGRwkbGeometryType
  spatialRef : Option Nat
  deriving DecidableEq, Repr

/-- A feature definition (`OGRFeatureDefn`): the names of the attribute fields and the
geometry field definitions, in order. -/
structure OGRFeatureDefn where
  fields : List CString
  geomFields : List OGRGeomFieldDefn
  deriving DecidableEq, Repr

/-- A feature (`OGRFeature`): identifier, the definition it is bound to, attribute values and
one geometry slot per geometry field, empty when the geometry is null. -/
structure OGRFeature where
  fid : Int
  defn : OGRFeatureDefn
  attributes : List CString
  geometries : List (Option OGRGeometry)
  deriving DecidableEq, Repr

/-- A source layer (`OGRLayer`), as far as the file consults it. -/
structure OGRLayer where
  description : CString
  layerDefn : OGRFeatureDefn
  features : List OGRFeature
  featureCount : Bool → Int
  testCapability : CString → Bool

/-- The coercion primitive `OGRGeometryFactory::forceTo(poGeom, eTargetType)`, an external
collaborator: it may reshape the geometry, return it as it is, or return no geometry. -/
abbrev ForceTo := OGRGeometry → OGRwkbGeometryType → Option OGRGeometry

/-- The converting layer `GDALVectorGeomOpSetTypeAlgorithmLayer`: the source layer, the options,
the adapted definition, and the attribute and spatial filters installed on it. -/
structure GDALVectorGeomOpSetTypeAlgorithmLayer where
  m_srcLayer : OGRLayer
  m_opts : Options
  m_poFeatureDefn : OGRFeatureDefn
  description : CString
  m_poAttrQuery : Option CString
  m_poFilterGeom : Option OGRGeometry

/-- The test `m_opts.m_geomField.empty() || m_opts.m_geomField == poGeomFieldDefn->GetNameRef()`
shared by the constructor and `TranslateFeature`. -/
def geomFieldSelected (m_opts : Options) (poGeomFieldDefn : OGRGeomFieldDefn) : Bool :=
  m_opts.m_geomField.isEmpty || m_opts.m_geomField == poGeomFieldDefn.name

/-- The constructor of `GDALVectorGeomOpSetTypeAlgorithmLayer`: clones the source definition
and, unless `m_featureGeomOnly` is set, rewrites the declared type of every selected geometry
field with `ConvertType`. -/
def GDALVectorGeomOpSetTypeAlgorithmLayer.create (api : OGRTypeApi) (oSrcLayer : OGRLayer)
    (opts : Options) : GDALVectorGeomOpSetTypeAlgorithmLayer :=
  { m_srcLayer := oSrcLayer
    m_opts := opts
    m_poFeatureDefn :=
      if !opts.m_featureGeomOnly then
        { oSrcLayer.layerDefn with
          geomFields := oSrcLayer.layerDefn.geomFields.map fun poGeomFieldDefn =>
            if geomFieldSelected opts poGeomFieldDefn then
              { poGeomFieldDefn with type := ConvertType api opts poGeomFieldDefn.type }
            else poGeomFieldDefn }
      else oSrcLayer.layerDefn
    description := oSrcLayer.description
    m_poAttrQuery := none
    m_poFilterGeom := none }

/-- How the body of the loop of `TranslateFeature` ends for one geometry field. -/
inductive GeomFieldStep where
  /-- The slot now holds this geometry (or stays null) and the loop goes on. -/
  | next (poGeom : Option OGRGeometry)
  /-- The statement `return nullptr` was reached. -/
  | returnNull
  /-- The null result of the coercion was dereferenced (`poNewGeom->assignSpatialReference`). -/
  | nullDereference
  deriving DecidableEq, Repr

/-- The body of the loop of `TranslateFeature` for geometry field `i`, given its definition in
the adapted schema and the geometry the feature holds there. -/
def TranslateFeature.geomField (api : OGRTypeApi) (forceTo : ForceTo) (m_opts : Options)
    (poGeomFieldDefn : OGRGeomFieldDefn) : Option OGRGeometry → GeomFieldStep
  | none => .next none
  | some poGeom =>
    if !m_opts.m_layerOnly && geomFieldSelected m_opts poGeomFieldDefn then
      let eTargetType := ConvertType api m_opts poGeom.geometryType
      match forceTo poGeom eTargetType with
      | none => if m_opts.m_skip then .returnNull else .nullDereference
      | some poNewGeom =>
        if m_opts.m_skip ∧ wkbFlatten api eTargetType ≠ wkbUnknown ∧
            poNewGeom.geometryType ≠ eTargetType then
          .returnNull
        else
          .next (some { poNewGeom with spatialReference := poGeomFieldDefn.spatialRef })
    else
      .next (some { poGeom with spatialReference := poGeomFieldDefn.spatialRef })

/-- How a call of `TranslateFeature` ends. -/
inductive TranslateResult where
  /-- The translated feature is returned. -/
  | feature (poDstFeature : OGRFeature)
  /-- The call returns `nullptr`: the feature is dropped. -/
  | absent
  /-- The call dereferences a null pointer. -/
  | nullDereference
  deriving DecidableEq, Repr

/-- The loop of `TranslateFeature` over the geometry fields, from the first one on: the new
geometry slots when the loop runs to its end, the way it stopped otherwise.  Slots with no
field definition are left as they are. -/
def TranslateFeature.loop (api : OGRTypeApi) (forceTo : ForceTo) (m_opts : Options) :
    List OGRGeomFieldDefn → List (Option OGRGeometry) → GeomFieldStep ⊕ List (Option OGRGeometry)
  | poGeomFieldDefn :: defns, poGeom :: geoms =>
    match TranslateFeature.geomField api forceTo m_opts poGeomFieldDefn poGeom with
    | .next poNewGeom =>
      match TranslateFeature.loop api forceTo m_opts defns geoms with
      | .inr rest => .inr (poNewGeom :: rest)
      | .inl stop => .inl stop
    | stop => .inl stop
  | _, geoms => .inr geoms

/-- The method `GDALVectorGeomOpSetTypeAlgorithmLayer::TranslateFeature`: binds the feature to
the adapted definition, then converts its geometry fields one after the other. -/
def TranslateFeature (api : OGRTypeApi) (forceTo : ForceTo)
    (layer : GDALVectorGeomOpSetTypeAlgorithmLayer) (poSrcFeature : OGRFeature) :
    TranslateResult :=
  match TranslateFeature.loop api forceTo layer.m_opts layer.m_poFeatureDefn.geomFields
      poSrcFeature.geometries with
  | .inr geoms => .feature { poSrcFeature with defn := layer.m_poFeatureDefn, geometries := geoms }
  | .inl .nullDereference => .nullDereference
  | .inl _ => .absent

/-! ## The other methods of the converting layer -/

/-- The overriding method `TranslateFeature(poSrcFeature, apoOutFeatures)`: translates the
feature and appends the result to the output vector when it is not null.  No vector is left
when the translation dereferences a null pointer. -/
def TranslateFeature.push (api : OGRTypeApi) (forceTo : ForceTo)
    (layer : GDALVectorGeomOpSetTypeAlgorithmLayer) (poSrcFeature : OGRFeature)
    (apoOutFeatures : List OGRFeature) : Option (List OGRFeature) :=
  match TranslateFeature api forceTo layer poSrcFeature with
  | .feature poDstFeature => some (apoOutFeatures ++ [poDstFeature])
  | .absent => some apoOutFeatures
  | .nullDereference => none

/-- Modelled from the spec: the sequential iteration "inherited from the output-layer base"
(`GDALVectorPipelineOutputLayer`, outside the embedded file).  Each source feature is handed in
turn to the overriding `TranslateFeature`, "each feature is translated exactly when the caller
requests it"; the result is the features yielded by a complete pass, or nothing when a
translation dereferences a null pointer. -/
def translateAll (api : OGRTypeApi) (forceTo : ForceTo)
    (layer : GDALVectorGeomOpSetTypeAlgorithmLayer) :
    List OGRFeature → List OGRFeature → Option (List OGRFeature)
  | [], apoOutFeatures => some apoOutFeatures
  | poSrcFeature :: rest, apoOutFeatures =>
    match TranslateFeature.push api forceTo layer poSrcFeature apoOutFeatures with
    | some out => translateAll api forceTo layer rest out
    | none => none

/-- The method `GetFeatureCount(bForce)`.  The inherited `OGRLayer::GetFeatureCount`, the generic
count by iteration, is outside the embedded file and is a parameter. -/
def GetFeatureCount (baseGetFeatureCount : Bool → Int)
    (layer : GDALVectorGeomOpSetTypeAlgorithmLayer) (bForce : Bool) : Int :=
  if !layer.m_opts.m_skip && layer.m_poAttrQuery.isNone && layer.m_poFilterGeom.isNone then
    layer.m_srcLayer.featureCount bForce
  else
    baseGetFeatureCount bForce

/-- Modelled from the spec: the library shorthand `EQUAL(a, b)` (`cpl_port.h`, outside the
embedded file): the two strings are equal ignoring the case of ASCII letters, that is
`strcasecmp(a, b) == 0`. -/
def EQUAL : CString → CString → Bool
  | [], [] => true
  | a :: as, b :: bs => a.toUpper == b.toUpper && EQUAL as bs
  | _, _ => false

/-- Modelled from the spec: capability name `OLCRandomRead` (`ogr_core.h`, outside the embedded
file), "random read". -/
def OLCRandomRead : CString := ['R','a','n','d','o','m','R','e','a','d']

/-- Modelled from the spec: capability name `OLCCurveGeometries` (`ogr_core.h`, outside the
embedded file), "curve ... geometry support". -/
def OLCCurveGeometries : CString :=
  ['C','u','r','v','e','G','e','o','m','e','t','r','i','e','s']

/-- Modelled from the spec: capability name `OLCMeasuredGeometries` (`ogr_core.h`, outside the
embedded file), "measured ... geometry support". -/
def OLCMeasuredGeometries : CString :=
  ['M','e','a','s','u','r','e','d','G','e','o','m','e','t','r','i','e','s']

/-- Modelled from the spec: capability name `OLCZGeometries` (`ogr_core.h`, outside the embedded
file), "Z geometry support". -/
def OLCZGeometries : CString := ['Z','G','e','o','m','e','t','r','i','e','s']

/-- Modelled from the spec: capability name `OLCFastFeatureCount` (`ogr_core.h`, outside the
embedded file), "fast feature count". -/
def OLCFastFeatureCount : CString :=
  ['F','a','s','t','F','e','a','t','u','r','e','C','o','u','n','t']

/-- Modelled from the spec: capability name `OLCFastGetExtent` (`ogr_core.h`, outside the
embedded file), "fast extent". -/
def OLCFastGetExtent : CString := ['F','a','s','t','G','e','t','E','x','t','e','n','t']

/-- Modelled from the spec: capability name `OLCStringsAsUTF8` (`ogr_core.h`, outside the
embedded file), "UTF-8 strings". -/
def OLCStringsAsUTF8 : CString := ['S','t','r','i','n','g','s','A','s','U','T','F','8']

/-- The method `TestCapability(pszCap)`. -/
def TestCapability (layer : GDALVectorGeomOpSetTypeAlgorithmLayer) (pszCap : CString) : Bool :=
  if EQUAL pszCap OLCRandomRead || EQUAL pszCap OLCCurveGeometries ||
      EQUAL pszCap OLCMeasuredGeometries || EQUAL pszCap OLCZGeometries ||
      (EQUAL pszCap OLCFastFeatureCount && !layer.m_opts.m_skip &&
        layer.m_poAttrQuery.isNone && layer.m_poFilterGeom.isNone) ||
      EQUAL pszCap OLCFastGetExtent || EQUAL pszCap OLCStringsAsUTF8 then
    layer.m_srcLayer.testCapability pszCap
  else
    false

/-! ## RunStep -/

/-- A layer of the output dataset: a converting layer or a passthrough layer over the source. -/
inductive OutputLayer where
  | setType (poLayer : GDALVectorGeomOpSetTypeAlgorithmLayer)
  | passthrough (poSrcLayer : OGRLayer)

/-- The errors the step reports with `ReportError`. -/
inductive StepError where
  /-- Message "--geometry-type cannot be used with any of
  --multi/single/linear/multi/xy/xyz/xym/xyzm". -/
  | geometryTypeWithFlags
  /-- Message "Invalid geometry type" followed by the quoted type string. -/
  | invalidGeometryType (type : CString)
  deriving DecidableEq, Repr

/-- The state of `GDALVectorGeomOpSetTypeAlgorithm` that `RunStep` reads and writes, with the
local output dataset `outDS` as it is when the function returns and the errors reported. -/
structure GDALVectorGeomOpSetTypeAlgorithm where
  m_opts : Options
  m_activeLayer : CString
  m_inputDataset : List OGRLayer
  m_outputDataset : Option (List (OGRLayer × OutputLayer))
  outDS : List (OGRLayer × OutputLayer)
  errors : List StepError

/-- The state in which `RunStep` is entered: the output dataset is not set (the assertions at
the top of the function), nothing has been reported. -/
def GDALVectorGeomOpSetTypeAlgorithm.initial (m_opts : Options) (m_activeLayer : CString)
    (layers : List OGRLayer) : GDALVectorGeomOpSetTypeAlgorithm :=
  { m_opts := m_opts, m_activeLayer := m_activeLayer, m_inputDataset := layers,
    m_outputDataset := none, outDS := [], errors := [] }

/-- The flag test of `RunStep`: one of the eight shape and dimension flags is set. -/
def anyShapeFlag (m_opts : Options) : Bool :=
  m_opts.m_multi || m_opts.m_single || m_opts.m_linear || m_opts.m_curve || m_opts.m_xy ||
    m_opts.m_xyz || m_opts.m_xym || m_opts.m_xyzm

/-- The layer loop of `RunStep`: one `AddLayer` per source layer, in order, with a converting
layer when the active-layer name is empty or is the description of the source layer, and a
passthrough layer otherwise. -/
def RunStep.addLayers (api : OGRTypeApi) (m_opts : Options) (m_activeLayer : CString)
    (layers : List OGRLayer) : List (OGRLayer × OutputLayer) :=
  layers.map fun poSrcLayer =>
    if m_activeLayer.isEmpty || m_activeLayer == poSrcLayer.description then
      (poSrcLayer, .setType (GDALVectorGeomOpSetTypeAlgorithmLayer.create api poSrcLayer m_opts))
    else
      (poSrcLayer, .passthrough poSrcLayer)

/-- The method `GDALVectorGeomOpSetTypeAlgorithm::RunStep`: the value it returns and the state
it leaves.  The local dataset `outDS` is created empty; it receives layers only in the layer
loop and is handed to `m_outputDataset` only after it. -/
def RunStep (api : OGRTypeApi) (self : GDALVectorGeomOpSetTypeAlgorithm) :
    Bool × GDALVectorGeomOpSetTypeAlgorithm :=
  if !self.m_opts.m_type.isEmpty then
    if anyShapeFlag self.m_opts then
      (false, { self with outDS := [], errors := self.errors ++ [.geometryTypeWithFlags] })
    else
      let m_opts := { self.m_opts with m_eType := api.OGRFromOGCGeomType self.m_opts.m_type }
      if wkbFlatten api m_opts.m_eType = wkbUnknown ∧
          ¬ STARTS_WITH_CI m_opts.m_type ['G','E','O','M','E','T','R','Y'] then
        (false, { self with
          m_opts := m_opts, outDS := [],
          errors := self.errors ++ [.invalidGeometryType m_opts.m_type] })
      else
        let outDS := RunStep.addLayers api m_opts self.m_activeLayer self.m_inputDataset
        (true, { self with m_opts := m_opts, outDS := outDS, m_outputDataset := some outDS })
  else
    let outDS := RunStep.addLayers api self.m_opts self.m_activeLayer self.m_inputDataset
    (true, { self with outDS := outDS, m_outputDataset := some outDS })

/-- The completion function of the `geometry-type` argument: for every base name that starts
with the current value (every one when the value is empty), the name and the name followed by
`Z`, `M` and `ZM`. -/
def geometryTypeAutoComplete (currentValue : CString) : List CString :=
  ([ ['G','E','O','M','E','T','R','Y'], ['P','O','I','N','T'],
     ['L','I','N','E','S','T','R','I','N','G'], ['P','O','L','Y','G','O','N'],
     ['M','U','L','T','I','P','O','I','N','T'],
     ['M','U','L','T','I','L','I','N','E','S','T','R','I','N','G'],
     ['M','U','L','T','I','P','O','L','Y','G','O','N'],
     ['G','E','O','M','E','T','R','Y','C','O','L','L','E','C','T','I','O','N'],
     ['C','U','R','V','E'], ['C','I','R','C','U','L','A','R','S','T','R','I','N','G'],
     ['C','O','M','P','O','U','N','D','C','U','R','V','E'], ['S','U','R','F','A','C','E'],
     ['C','U','R','V','E','P','O','L','Y','G','O','N'], ['M','U','L','T','I','C','U','R','V','E'],
     ['M','U','L','T','I','S','U','R','F','A','C','E'],
     ['P','O','L','Y','H','E','D','R','A','L','S','U','R','F','A','C','E'], ['T','I','N'] ] :
      List CString).flatMap fun type =>
    if currentValue.isEmpty || STARTS_WITH type currentValue then
      [type, type ++ ['Z'], type ++ ['M'], type ++ ['Z', 'M']]
    else []

/-! ## Option blocks used in the statements -/

/-- The option block with no explicit type and exactly the given shape and dimension flags. -/
def Options.shape (multi single linear curve xy xyz xym xyzm : Bool) : Options :=
  { Options.default with
    m_multi := multi, m_single := single, m_linear := linear, m_curve := curve,
    m_xy := xy, m_xyz := xyz, m_xym := xym, m_xyzm := xyzm }

/-- Only `--multi`. -/
def multiOnly : Options := Options.shape true false false false false false false false

/-- Only `--single`. -/
def singleOnly : Options := Options.shape false true false false false false false false

/-- An explicit type `POINT`, already parsed, in a block that also has every shape and
dimension flag set. -/
def explicitPointAllFlags : Options :=
  { Options.shape true true true true true true true true with
    m_type := ['P','O','I','N','T'], m_eType := wkbPoint }

/-- Options `--multi --curve --xyz`. -/
def multiCurveXyz : Options := Options.shape true false false true false true false false

/-- Options `--single --linear`. -/
def singleLinear : Options := Options.shape false true true false false false false false

/-- The three settings of a pair of exclusive flags, with the first flag taking precedence. -/
def flagPairs : List (Bool × Bool) := [(true, false), (false, true), (false, false)]

/-- The five settings of the four dimension flags, each flag read when those before it are
off. -/
def dimensionFlags : List (Bool × Bool × Bool × Bool) :=
  [(true, false, false, false), (false, true, false, false), (false, false, true, false),
    (false, false, false, true), (false, false, false, false)]

/-- The base shapes that `multi` followed by `single` returns to. -/
def roundTripShapes : List OGRwkbGeometryType :=
  [wkbPoint, wkbLineString, wkbPolygon, wkbCompoundCurve, wkbCurvePolygon]

/-- Options `--xy --skip`. -/
def xySkip : Options :=
  { Options.shape false false false false true false false false with m_skip := true }

/-- The string `GEOMETRYFOO`. -/
def geometryFoo : CString := ['G','E','O','M','E','T','R','Y','F','O','O']

/-- The string `POINTZ`. -/
def pointZName : CString := ['P','O','I','N','T','Z']

/-- A Point Z geometry value. -/
def pointZGeometry : OGRGeometry :=
  { geometryType := OGR_GT_SetZ wkbPoint, spatialReference := none, coordinates := [1, 2, 3] }

/-- A definition with one attribute field and one geometry field `geom` declared Point Z. -/
def pointZDefn : OGRFeatureDefn :=
  { fields := [['i','d']]
    geomFields := [{ name := ['g','e','o','m'], type := OGR_GT_SetZ wkbPoint, spatialRef := some 4326 }] }

/-- A feature of `pointZDefn` holding `pointZGeometry`. -/
def pointZFeature : OGRFeature :=
  { fid := 1, defn := pointZDefn, attributes := [['a']], geometries := [some pointZGeometry] }

/-- A source layer `points` with the single feature `pointZFeature`. -/
def pointZLayer : OGRLayer :=
  { description := ['p','o','i','n','t','s']
    layerDefn := pointZDefn
    features := [pointZFeature]
    featureCount := fun _ => 1
    testCapability := fun _ => false }

/-- A coercion that returns the geometry as it is, whatever the target type. -/
def keepGeometry : ForceTo := fun poGeom _ => some poGeom

/-- The drop condition of `TranslateFeature` for one geometry field under `m_skip`: the slot
holds a geometry, the field is selected for conversion, and the coercion gives no result or
gives a geometry whose type is not the target type while the flattened target is not the
generic type. -/
def TranslateFeature.fieldDrops (api : OGRTypeApi) (forceTo : ForceTo) (m_opts : Options)
    (poGeomFieldDefn : OGRGeomFieldDefn) (slot : Option OGRGeometry) : Prop :=
  ∃ poGeom, slot = some poGeom ∧ m_opts.m_layerOnly = false ∧
    geomFieldSelected m_opts poGeomFieldDefn = true ∧
    (forceTo poGeom (ConvertType api m_opts poGeom.geometryType) = none ∨
      ∃ poNewGeom, forceTo poGeom (ConvertType api m_opts poGeom.geometryType) = some poNewGeom ∧
        wkbFlatten api (ConvertType api m_opts poGeom.geometryType) ≠ wkbUnknown ∧
        poNewGeom.geometryType ≠ ConvertType api m_opts poGeom.geometryType)

/-! ## Data used in the statements on layers and features -/

/-- A coercion that returns no geometry, whatever it is asked. -/
def failCoercion : ForceTo := fun _ _ => none

/-- A coercion that returns the geometry with the type it was asked for. -/
def echoTarget : ForceTo := fun poGeom eTargetType =>
  some { poGeom with geometryType := eTargetType }

/-- Options `--multi --active-geometry geom2`. -/
def multiGeom2 : Options := { multiOnly with m_geomField := ['g','e','o','m','2'] }

/-- Options `--multi --skip --active-geometry geom2`. -/
def multiSkipGeom2 : Options := { multiGeom2 with m_skip := true }

/-- A 2D point geometry value. -/
def pointGeometry : OGRGeometry :=
  { geometryType := wkbPoint, spatialReference := none, coordinates := [1, 2] }

/-- A 2D line string geometry value. -/
def lineGeometry : OGRGeometry :=
  { geometryType := wkbLineString, spatialReference := none, coordinates := [0, 0, 1, 1] }

/-- A definition with the geometry fields `geom1` and `geom2`, both declared Point. -/
def twoFieldDefn : OGRFeatureDefn :=
  { fields := [['i','d']]
    geomFields :=
      [{ name := ['g','e','o','m','1'], type := wkbPoint, spatialRef := some 4326 },
       { name := ['g','e','o','m','2'], type := wkbPoint, spatialRef := some 3857 }] }

/-- A feature of `twoFieldDefn` with a point in each geometry field. -/
def twoFieldFeature : OGRFeature :=
  { fid := 7, defn := twoFieldDefn, attributes := [['a']],
    geometries := [some pointGeometry, some pointGeometry] }

/-- A feature of `twoFieldDefn` with a point in `geom1` and a line string in `geom2`. -/
def twoFieldLineFeature : OGRFeature :=
  { fid := 8, defn := twoFieldDefn, attributes := [['b']],
    geometries := [some pointGeometry, some lineGeometry] }

/-- A feature of `twoFieldDefn` with a point in `geom1` and no geometry in `geom2`. -/
def twoFieldNullFeature : OGRFeature :=
  { fid := 9, defn := twoFieldDefn, attributes := [['c']],
    geometries := [some pointGeometry, none] }

/-- A source layer `pairs` with the two features above; it answers -1 to an unforced feature
count and supports random read only. -/
def twoFieldLayer : OGRLayer :=
  { description := ['p','a','i','r','s']
    layerDefn := twoFieldDefn
    features := [twoFieldFeature, twoFieldLineFeature]
    featureCount := fun bForce => if bForce then 2 else -1
    testCapability := fun pszCap => EQUAL pszCap OLCRandomRead }

/-- The string `randomread`. -/
def randomreadName : CString := ['r','a','n','d','o','m','r','e','a','d']

/-- The string `points`. -/
def pointsName : CString := ['p','o','i','n','t','s']

/-- The feature `twoFieldFeature` after `--multi --active-geometry geom2`: bound to the adapted
definition, `geom1` as it was with the spatial reference of the field, `geom2` a multi-point
with the spatial reference of the field. -/
def twoFieldFeatureConverted : OGRFeature :=
  { twoFieldFeature with
    defn := (GDALVectorGeomOpSetTypeAlgorithmLayer.create ogr twoFieldLayer
      multiGeom2).m_poFeatureDefn
    geometries :=
      [some { pointGeometry with spatialReference := some 4326 },
       some { pointGeometry with geometryType := wkbMultiPoint, spatialReference := some 3857 }] }

/-! ## ConvertType: general facts -/

/-- With no explicit type, `ConvertType` reads nothing of the option block but the eight shape
and dimension flags. -/
theorem ConvertType_shape (api : OGRTypeApi) (m_opts : Options) (eType : OGRwkbGeometryType)
    (hType : m_opts.m_type = []) :
    ConvertType api m_opts eType =
      ConvertType api (Options.shape m_opts.m_multi m_opts.m_single m_opts.m_linear
        m_opts.m_curve m_opts.m_xy m_opts.m_xyz m_opts.m_xym m_opts.m_xyzm) eType := by
  simp [ConvertType, ConvertType.cardinality, ConvertType.curvature, ConvertType.dimension,
    Options.shape, Options.default, hType]

/-- With no explicit type and no dimension flag, `ConvertType` is the cardinality step followed
by the linear/curve step. -/
theorem ConvertType_no_dimension (api : OGRTypeApi) (m_opts : Options)
    (eType : OGRwkbGeometryType) (hType : m_opts.m_type = []) (hxy : m_opts.m_xy = false)
    (hxyz : m_opts.m_xyz = false) (hxym : m_opts.m_xym = false) (hxyzm : m_opts.m_xyzm = false) :
    ConvertType api m_opts eType =
      ConvertType.curvature api m_opts (ConvertType.cardinality api m_opts eType) := by
  simp [ConvertType, ConvertType.dimension, hType, hxy, hxyz, hxym, hxyzm]

/-- In the library model the cardinality and linear/curve steps take geometry types to geometry
types. -/
theorem curvature_cardinality_mem (m_opts : Options) (eType : OGRwkbGeometryType)
    (hSrc : eType ∈ geometryTypes) :
    ConvertType.curvature ogr m_opts (ConvertType.cardinality ogr m_opts eType) ∈
      geometryTypes := by
  have key : ∀ a b c d : Bool, ∀ t ∈ geometryTypes,
      ConvertType.curvature ogr (Options.shape a b c d false false false false)
        (ConvertType.cardinality ogr (Options.shape a b c d false false false false) t) ∈
        geometryTypes := by
    intro a b c d
    cases a <;> cases b <;> cases c <;> cases d <;> decide
  have h := key m_opts.m_multi m_opts.m_single m_opts.m_linear m_opts.m_curve eType hSrc
  simpa [ConvertType.cardinality, ConvertType.curvature, Options.shape, Options.default] using h

/-- With a non-empty type string `ConvertType` takes its first branch. -/
theorem ConvertType_explicit (api : OGRTypeApi) (m_opts : Options)
    (eType : OGRwkbGeometryType) (hType : m_opts.m_type ≠ []) :
    ConvertType api m_opts eType = m_opts.m_eType := by
  unfold ConvertType
  cases hm : m_opts.m_type with
  | nil => exact absurd hm hType
  | cons c cs => simp

/-! ## C1 -/

/-- C1: when the explicit target type string is non-empty, `ConvertType` returns the parsed
explicit type `m_eType`, for every source type, every setting of the other options and every
behaviour of the library functions. -/
theorem C1_explicit_type_returned_verbatim (api : OGRTypeApi) (m_opts : Options)
    (eType : OGRwkbGeometryType) (hType : m_opts.m_type ≠ []) :
    ConvertType api m_opts eType = m_opts.m_eType := by
  have hne : m_opts.m_type.isEmpty = false := by
    cases hm : m_opts.m_type with
    | nil => exact absurd hm hType
    | cons c cs => rfl
  simp [ConvertType, hne]

/-- C1 at a concrete input: the explicit type `POINT` wins over a Triangle ZM source and over
all eight flags. -/
theorem C1_explicit_type_returned_verbatim_witness :
    explicitPointAllFlags.m_type ≠ [] ∧
      ConvertType ogr explicitPointAllFlags (OGR_GT_SetZ (OGR_GT_SetM wkbTriangle)) = wkbPoint :=
  ⟨by decide,
    C1_explicit_type_returned_verbatim ogr explicitPointAllFlags
      (OGR_GT_SetZ (OGR_GT_SetM wkbTriangle)) (by decide)⟩

/-! ## C2 -/

/-- C2: for the 2D source types `wkbTriangle`, `wkbTIN` and `wkbPolyhedralSurface`, with no
explicit type, `m_multi` set and no linear, curve or dimension flag, `ConvertType` returns
exactly `wkbMultiPolygon`, which is neither `wkbTIN` nor `wkbMultiSurface`; the result is the
same for every behaviour of the library functions, the generic collection mapping included. -/
theorem C2_flat_faceted_multi_is_multipolygon (api : OGRTypeApi) (m_opts : Options)
    (eType : OGRwkbGeometryType) (hType : m_opts.m_type = []) (hMulti : m_opts.m_multi = true)
    (hLinear : m_opts.m_linear = false) (hCurve : m_opts.m_curve = false)
    (hxy : m_opts.m_xy = false) (hxyz : m_opts.m_xyz = false) (hxym : m_opts.m_xym = false)
    (hxyzm : m_opts.m_xyzm = false)
    (hSrc : eType = wkbTriangle ∨ eType = wkbTIN ∨ eType = wkbPolyhedralSurface) :
    ConvertType api m_opts eType = wkbMultiPolygon ∧
      ConvertType api m_opts eType ≠ wkbTIN ∧ ConvertType api m_opts eType ≠ wkbMultiSurface := by
  have h : ConvertType api m_opts eType = wkbMultiPolygon := by
    rw [ConvertType_no_dimension api m_opts eType hType hxy hxyz hxym hxyzm]
    simp [ConvertType.cardinality, ConvertType.curvature, hMulti, hLinear, hCurve, hSrc]
  rw [h]
  exact ⟨rfl, by decide, by decide⟩

/-- C2 at a concrete input: a 2D TIN under `--multi` alone. -/
theorem C2_flat_faceted_multi_is_multipolygon_witness :
    (multiOnly.m_type = [] ∧ multiOnly.m_multi = true) ∧
      ConvertType ogr multiOnly wkbTIN = wkbMultiPolygon ∧
      ConvertType ogr multiOnly wkbTIN ≠ wkbTIN ∧
      ConvertType ogr multiOnly wkbTIN ≠ wkbMultiSurface :=
  ⟨⟨rfl, rfl⟩,
    C2_flat_faceted_multi_is_multipolygon ogr multiOnly wkbTIN rfl rfl rfl rfl rfl rfl rfl rfl
      (Or.inr (Or.inl rfl))⟩

/-! ## C3 -/

/-- The special case of the cardinality step compares the source type itself with the three 2D
codes: any other type, a Z, M or ZM variant of a triangle, TIN or polyhedral surface included,
takes the generic branch, whatever the library functions do. -/
theorem cardinality_multi_generic (api : OGRTypeApi) (m_opts : Options)
    (eType : OGRwkbGeometryType) (hMulti : m_opts.m_multi = true)
    (hSrc : eType ≠ wkbTriangle ∧ eType ≠ wkbTIN ∧ eType ≠ wkbPolyhedralSurface) :
    ConvertType.cardinality api m_opts eType =
      if api.OGR_GT_IsSubClassOf eType wkbGeometryCollection then eType
      else api.OGR_GT_GetCollection eType := by
  obtain ⟨h1, h2, h3⟩ := hSrc
  cases h : api.OGR_GT_IsSubClassOf eType wkbGeometryCollection <;>
    simp [ConvertType.cardinality, hMulti, h1, h2, h3, h]

/-- C3: the code at the Z variants of the three faceted surface types under `--multi` alone.
Triangle Z (1017) becomes TIN Z (1016); TIN Z (1016) and PolyhedralSurface Z (1015) become
MultiSurface Z (1012), where the claim asks for base shape MultiPolygon; and for none of the
Z, M and ZM variants of the three types the result has base shape MultiPolygon. -/
theorem C3_dimensioned_faceted_multi_misses_multipolygon :
    ConvertType ogr multiOnly (OGR_GT_SetZ wkbTriangle) = OGR_GT_SetZ wkbTIN ∧
      ConvertType ogr multiOnly (OGR_GT_SetZ wkbTIN) = OGR_GT_SetZ wkbMultiSurface ∧
      ConvertType ogr multiOnly (OGR_GT_SetZ wkbPolyhedralSurface) =
        OGR_GT_SetZ wkbMultiSurface ∧
      wkbFlatten ogr (OGR_GT_SetZ wkbTriangle) = wkbTriangle ∧
      wkbFlatten ogr (ConvertType ogr multiOnly (OGR_GT_SetZ wkbTriangle)) = wkbTIN ∧
      wkbFlatten ogr (ConvertType ogr multiOnly (OGR_GT_SetZ wkbTIN)) = wkbMultiSurface ∧
      wkbFlatten ogr (ConvertType ogr multiOnly (OGR_GT_SetZ wkbPolyhedralSurface)) =
        wkbMultiSurface ∧
      ∀ b ∈ [wkbTriangle, wkbTIN, wkbPolyhedralSurface],
        ∀ eType ∈ [OGR_GT_SetZ b, OGR_GT_SetM b, OGR_GT_SetZ (OGR_GT_SetM b)],
          wkbFlatten ogr eType = b ∧
            wkbFlatten ogr (ConvertType ogr multiOnly eType) ≠ wkbMultiPolygon := by
  decide

/-! ## C4 -/

/-- In the library model, flattening a geometry type and then forcing Z, M or both gives
exactly the requested bits. -/
theorem flatten_then_set_dims (eType : OGRwkbGeometryType) (hSrc : eType ∈ geometryTypes) :
    (OGR_GT_HasZ (OGR_GT_Flatten eType) = false ∧ OGR_GT_HasM (OGR_GT_Flatten eType) = false) ∧
      (OGR_GT_HasZ (OGR_GT_SetZ (OGR_GT_Flatten eType)) = true ∧
        OGR_GT_HasM (OGR_GT_SetZ (OGR_GT_Flatten eType)) = false) ∧
      (OGR_GT_HasZ (OGR_GT_SetM (OGR_GT_Flatten eType)) = false ∧
        OGR_GT_HasM (OGR_GT_SetM (OGR_GT_Flatten eType)) = true) ∧
      (OGR_GT_HasZ (OGR_GT_SetZ (OGR_GT_SetM (OGR_GT_Flatten eType))) = true ∧
        OGR_GT_HasM (OGR_GT_SetZ (OGR_GT_SetM (OGR_GT_Flatten eType))) = true) := by
  revert eType
  decide!

/-- C4: with no explicit type, for every geometry type as source and every setting of the
cardinality and linear/curve flags, the Z and M bits of the result of `ConvertType` depend on
the dimension flag alone: `xy` gives neither Z nor M, `xyz` gives Z and not M, `xym` gives M and
not Z, `xyzm` gives both (a flag is read when the flags before it in this order are off). -/
theorem C4_dimension_flag_determines_zm (m_opts : Options) (eType : OGRwkbGeometryType)
    (hType : m_opts.m_type = []) (hSrc : eType ∈ geometryTypes) :
    (m_opts.m_xy = true →
        ogr.OGR_GT_HasZ (ConvertType ogr m_opts eType) = false ∧
          ogr.OGR_GT_HasM (ConvertType ogr m_opts eType) = false) ∧
      (m_opts.m_xy = false → m_opts.m_xyz = true →
        ogr.OGR_GT_HasZ (ConvertType ogr m_opts eType) = true ∧
          ogr.OGR_GT_HasM (ConvertType ogr m_opts eType) = false) ∧
      (m_opts.m_xy = false → m_opts.m_xyz = false → m_opts.m_xym = true →
        ogr.OGR_GT_HasZ (ConvertType ogr m_opts eType) = false ∧
          ogr.OGR_GT_HasM (ConvertType ogr m_opts eType) = true) ∧
      (m_opts.m_xy = false → m_opts.m_xyz = false → m_opts.m_xym = false →
        m_opts.m_xyzm = true →
        ogr.OGR_GT_HasZ (ConvertType ogr m_opts eType) = true ∧
          ogr.OGR_GT_HasM (ConvertType ogr m_opts eType) = true) := by
  have hmid := curvature_cardinality_mem m_opts eType hSrc
  obtain ⟨h0, h1, h2, h3⟩ := flatten_then_set_dims _ hmid
  have hCT : ConvertType ogr m_opts eType = ConvertType.dimension ogr m_opts
      (ConvertType.curvature ogr m_opts (ConvertType.cardinality ogr m_opts eType)) := by
    simp [ConvertType, hType]
  rw [hCT]
  refine ⟨fun hxy => ?_, fun hxy hxyz => ?_, fun hxy hxyz hxym => ?_,
    fun hxy hxyz hxym hxyzm => ?_⟩
  · simpa [ConvertType.dimension, hxy, ogr] using h0
  · simpa [ConvertType.dimension, hxy, hxyz, ogr] using h1
  · simpa [ConvertType.dimension, hxy, hxyz, hxym, ogr] using h2
  · simpa [ConvertType.dimension, hxy, hxyz, hxym, hxyzm, ogr] using h3

/-- C4 at a concrete input: a Point M source under `--multi --curve --xyz` gets Z and loses M. -/
theorem C4_dimension_flag_determines_zm_witness :
    (multiCurveXyz.m_type = [] ∧ OGR_GT_SetM wkbPoint ∈ geometryTypes) ∧
      ogr.OGR_GT_HasZ (ConvertType ogr multiCurveXyz (OGR_GT_SetM wkbPoint)) = true ∧
      ogr.OGR_GT_HasM (ConvertType ogr multiCurveXyz (OGR_GT_SetM wkbPoint)) = false :=
  ⟨⟨rfl, by decide⟩,
    (C4_dimension_flag_determines_zm multiCurveXyz (OGR_GT_SetM wkbPoint) rfl
      (by decide)).2.1 rfl rfl⟩

/-! ## C5 -/

/-- C5 as stated fails: `--multi` alone on the generic type with Z (`0x80000000`) returns plain
`wkbUnknown`; the source has Z, the result has not. -/
theorem C5_counterexample_unknown_z_multi :
    OGR_GT_SetZ wkbUnknown ∈ geometryTypes ∧
      ogr.OGR_GT_HasZ (OGR_GT_SetZ wkbUnknown) = true ∧
      ConvertType ogr multiOnly (OGR_GT_SetZ wkbUnknown) = wkbUnknown ∧
      ogr.OGR_GT_HasZ (ConvertType ogr multiOnly (OGR_GT_SetZ wkbUnknown)) = false := by
  decide

/-- C5, amended: with no explicit type and no dimension flag, the result of `ConvertType` on a
geometry type has Z exactly when the source has Z and M exactly when the source has M, except
in two cases where the result is plain `wkbUnknown`: `multi` on a source whose base shape is
the generic type, and `single` (without `multi`) on a source whose base shape is the generic
collection. -/
theorem C5_dimension_bits_kept_without_dimension_flag (m_opts : Options)
    (eType : OGRwkbGeometryType) (hType : m_opts.m_type = []) (hxy : m_opts.m_xy = false)
    (hxyz : m_opts.m_xyz = false) (hxym : m_opts.m_xym = false) (hxyzm : m_opts.m_xyzm = false)
    (hSrc : eType ∈ geometryTypes) :
    if (m_opts.m_multi = true ∧ wkbFlatten ogr eType = wkbUnknown) ∨
        (m_opts.m_multi = false ∧ m_opts.m_single = true ∧
          wkbFlatten ogr eType = wkbGeometryCollection) then
      ConvertType ogr m_opts eType = wkbUnknown
    else
      ogr.OGR_GT_HasZ (ConvertType ogr m_opts eType) = ogr.OGR_GT_HasZ eType ∧
        ogr.OGR_GT_HasM (ConvertType ogr m_opts eType) = ogr.OGR_GT_HasM eType := by
  have key : ∀ a b c d : Bool, ∀ t ∈ geometryTypes,
      if (a = true ∧ wkbFlatten ogr t = wkbUnknown) ∨
          (a = false ∧ b = true ∧ wkbFlatten ogr t = wkbGeometryCollection) then
        ConvertType ogr (Options.shape a b c d false false false false) t = wkbUnknown
      else
        ogr.OGR_GT_HasZ (ConvertType ogr (Options.shape a b c d false false false false) t) =
            ogr.OGR_GT_HasZ t ∧
          ogr.OGR_GT_HasM (ConvertType ogr (Options.shape a b c d false false false false) t) =
            ogr.OGR_GT_HasM t := by
    intro a b c d
    cases a <;> cases b <;> cases c <;> cases d <;> decide!
  have h := key m_opts.m_multi m_opts.m_single m_opts.m_linear m_opts.m_curve eType hSrc
  rw [ConvertType_shape ogr m_opts eType hType, hxy, hxyz, hxym, hxyzm]
  exact h

/-- C5, amended, at a concrete input: MultiSurface ZM under `--single --linear` keeps Z and M. -/
theorem C5_dimension_bits_kept_without_dimension_flag_witness :
    (singleLinear.m_type = [] ∧ OGR_GT_SetZ (OGR_GT_SetM wkbMultiSurface) ∈ geometryTypes) ∧
      ogr.OGR_GT_HasZ (ConvertType ogr singleLinear (OGR_GT_SetZ (OGR_GT_SetM wkbMultiSurface))) =
        true ∧
      ogr.OGR_GT_HasM (ConvertType ogr singleLinear (OGR_GT_SetZ (OGR_GT_SetM wkbMultiSurface))) =
        true :=
  ⟨⟨rfl, by decide⟩, by
    have h := C5_dimension_bits_kept_without_dimension_flag singleLinear
      (OGR_GT_SetZ (OGR_GT_SetM wkbMultiSurface)) rfl rfl rfl rfl rfl (by decide)
    rw [if_neg (by decide)] at h
    exact ⟨h.1.trans (by decide), h.2.trans (by decide)⟩⟩

/-! ## C6 -/

/-- C6: the code at Triangle Z (1017) under `--multi` alone.  The first call returns TIN Z
(1016), the second call on that result returns MultiSurface Z (1012): reapplying `ConvertType`
with the same flags changes its own output, where the claim asks for a fixed point. -/
theorem C6_dimensioned_triangle_multi_not_idempotent :
    ConvertType ogr multiOnly (OGR_GT_SetZ wkbTriangle) = OGR_GT_SetZ wkbTIN ∧
      ConvertType ogr multiOnly (ConvertType ogr multiOnly (OGR_GT_SetZ wkbTriangle)) =
        OGR_GT_SetZ wkbMultiSurface ∧
      ConvertType ogr multiOnly (ConvertType ogr multiOnly (OGR_GT_SetZ wkbTriangle)) ≠
        ConvertType ogr multiOnly (OGR_GT_SetZ wkbTriangle) := by
  decide

/-- A flag that follows a set flag of its group is not read: `ConvertType` on any shape block
equals `ConvertType` on the block where such flags are cleared. -/
theorem ConvertType_shape_precedence (api : OGRTypeApi) (a b c d e f g h : Bool)
    (eType : OGRwkbGeometryType) :
    ConvertType api (Options.shape a b c d e f g h) eType =
      ConvertType api (Options.shape a (!a && b) c (!c && d) e (!e && f) (!e && !f && g)
        (!e && !f && !g && h)) eType := by
  cases a <;> cases c <;> cases e <;> cases f <;> cases g <;>
    simp [ConvertType, ConvertType.cardinality, ConvertType.curvature, ConvertType.dimension,
      Options.shape, Options.default]

/-- Apart from the Z, M and ZM variants of Triangle under `multi`, `ConvertType` with no explicit
type is idempotent on the geometry types of the library model. -/
theorem ConvertType_idempotent_elsewhere (m_opts : Options) (eType : OGRwkbGeometryType)
    (hType : m_opts.m_type = []) (hSrc : eType ∈ geometryTypes)
    (hNot : ¬ (m_opts.m_multi = true ∧ wkbFlatten ogr eType = wkbTriangle ∧
      eType ≠ wkbTriangle)) :
    ConvertType ogr m_opts (ConvertType ogr m_opts eType) = ConvertType ogr m_opts eType := by
  have key : ∀ p ∈ flagPairs, ∀ q ∈ flagPairs, ∀ r ∈ dimensionFlags, ∀ t ∈ geometryTypes,
      ¬ (p.1 = true ∧ wkbFlatten ogr t = wkbTriangle ∧ t ≠ wkbTriangle) →
      ConvertType ogr (Options.shape p.1 p.2 q.1 q.2 r.1 r.2.1 r.2.2.1 r.2.2.2)
          (ConvertType ogr (Options.shape p.1 p.2 q.1 q.2 r.1 r.2.1 r.2.2.1 r.2.2.2) t) =
        ConvertType ogr (Options.shape p.1 p.2 q.1 q.2 r.1 r.2.1 r.2.2.1 r.2.2.2) t := by
    intro p hp q hq r hr
    simp only [flagPairs, dimensionFlags, List.mem_cons, List.mem_singleton, List.mem_nil_iff,
      or_false] at hp hq hr
    rcases hp with rfl | rfl | rfl <;> rcases hq with rfl | rfl | rfl <;>
      rcases hr with rfl | rfl | rfl | rfl | rfl <;> decide!
  have hp : ∀ a b : Bool, (a, !a && b) ∈ flagPairs := by decide
  have hr : ∀ e f g h : Bool,
      (e, !e && f, !e && !f && g, !e && !f && !g && h) ∈ dimensionFlags := by decide
  have h := key _ (hp m_opts.m_multi m_opts.m_single) _ (hp m_opts.m_linear m_opts.m_curve) _
    (hr m_opts.m_xy m_opts.m_xyz m_opts.m_xym m_opts.m_xyzm) eType hSrc hNot
  rw [ConvertType_shape ogr m_opts _ hType, ConvertType_shape ogr m_opts eType hType,
    ConvertType_shape_precedence]
  rw [ConvertType_shape_precedence ogr _ _ _ _ _ _ _ _ eType]
  exact h

/-! ## C7 -/

/-- C7 as stated fails: a 2D Triangle, which is not a collection type, goes to MultiPolygon
under `--multi` and from there to Polygon under `--single`; the base shape is not Triangle. -/
theorem C7_counterexample_triangle_round_trip :
    ogr.OGR_GT_IsSubClassOf wkbTriangle wkbGeometryCollection = false ∧
      ConvertType ogr multiOnly wkbTriangle = wkbMultiPolygon ∧
      ConvertType ogr singleOnly (ConvertType ogr multiOnly wkbTriangle) = wkbPolygon ∧
      wkbFlatten ogr (ConvertType ogr singleOnly (ConvertType ogr multiOnly wkbTriangle)) ≠
        wkbFlatten ogr wkbTriangle := by
  decide

/-- C7, amended: for every geometry type `T` whose base shape is Point, LineString, Polygon,
CompoundCurve or CurvePolygon, `ConvertType` with only `multi` set followed by `ConvertType`
with only `single` set returns `T` itself; for a `T` whose base shape is the generic type it
returns the generic type (plain `wkbUnknown`). -/
theorem C7_multi_then_single_round_trip (optsMulti optsSingle : Options)
    (eType : OGRwkbGeometryType)
    (hMulti : optsMulti.m_type = [] ∧ optsMulti.m_multi = true ∧ optsMulti.m_linear = false ∧
      optsMulti.m_curve = false ∧ optsMulti.m_xy = false ∧ optsMulti.m_xyz = false ∧
      optsMulti.m_xym = false ∧ optsMulti.m_xyzm = false)
    (hSingle : optsSingle.m_type = [] ∧ optsSingle.m_multi = false ∧
      optsSingle.m_single = true ∧ optsSingle.m_linear = false ∧ optsSingle.m_curve = false ∧
      optsSingle.m_xy = false ∧ optsSingle.m_xyz = false ∧ optsSingle.m_xym = false ∧
      optsSingle.m_xyzm = false)
    (hSrc : eType ∈ geometryTypes) :
    (wkbFlatten ogr eType ∈ roundTripShapes →
        ConvertType ogr optsSingle (ConvertType ogr optsMulti eType) = eType) ∧
      (wkbFlatten ogr eType = wkbUnknown →
        ConvertType ogr optsSingle (ConvertType ogr optsMulti eType) = wkbUnknown) := by
  obtain ⟨m0, m1, m2, m3, m4, m5, m6, m7⟩ := hMulti
  obtain ⟨s0, s1, s2, s3, s4, s5, s6, s7, s8⟩ := hSingle
  have key : ∀ b : Bool, ∀ t ∈ geometryTypes,
      (wkbFlatten ogr t ∈ roundTripShapes →
        ConvertType ogr singleOnly
          (ConvertType ogr (Options.shape true b false false false false false false) t) = t) ∧
      (wkbFlatten ogr t = wkbUnknown →
        ConvertType ogr singleOnly
          (ConvertType ogr (Options.shape true b false false false false false false) t) =
            wkbUnknown) := by
    intro b
    cases b <;> decide!
  have h := key optsMulti.m_single eType hSrc
  rw [ConvertType_shape ogr optsSingle _ s0, ConvertType_shape ogr optsMulti eType m0,
    m1, m2, m3, m4, m5, m6, m7, s1, s2, s3, s4, s5, s6, s7, s8]
  exact h

/-- C7, amended, at a concrete input: CurvePolygon Z goes to MultiSurface Z and back. -/
theorem C7_multi_then_single_round_trip_witness :
    (OGR_GT_SetZ wkbCurvePolygon ∈ geometryTypes ∧
        wkbFlatten ogr (OGR_GT_SetZ wkbCurvePolygon) ∈ roundTripShapes) ∧
      ConvertType ogr singleOnly (ConvertType ogr multiOnly (OGR_GT_SetZ wkbCurvePolygon)) =
        OGR_GT_SetZ wkbCurvePolygon :=
  ⟨⟨by decide, by decide⟩,
    (C7_multi_then_single_round_trip multiOnly singleOnly (OGR_GT_SetZ wkbCurvePolygon)
      ⟨rfl, rfl, rfl, rfl, rfl, rfl, rfl, rfl⟩ ⟨rfl, rfl, rfl, rfl, rfl, rfl, rfl, rfl, rfl⟩
      (by decide)).1 (by decide)⟩

/-! ## C8 -/

/-- C8: `RunStep` returns false whenever the geometry-type string is non-empty and one of the
eight shape and dimension flags is set; the local output dataset then has received no layer
and `m_outputDataset` is as it was on entry (unset).  With an empty geometry-type string
`RunStep` returns true for every setting of the flags. -/
theorem C8_explicit_type_with_flag_rejected (api : OGRTypeApi)
    (self : GDALVectorGeomOpSetTypeAlgorithm) :
    (self.m_opts.m_type ≠ [] →
      (self.m_opts.m_multi = true ∨ self.m_opts.m_single = true ∨ self.m_opts.m_linear = true ∨
        self.m_opts.m_curve = true ∨ self.m_opts.m_xy = true ∨ self.m_opts.m_xyz = true ∨
        self.m_opts.m_xym = true ∨ self.m_opts.m_xyzm = true) →
      (RunStep api self).1 = false ∧ (RunStep api self).2.outDS = [] ∧
        (RunStep api self).2.m_outputDataset = self.m_outputDataset) ∧
    (self.m_opts.m_type = [] → (RunStep api self).1 = true) := by
  constructor
  · intro hType hFlag
    have hne : self.m_opts.m_type.isEmpty = false := by
      cases h : self.m_opts.m_type with
      | nil => exact absurd h hType
      | cons c cs => rfl
    have hany : anyShapeFlag self.m_opts = true := by
      simp only [anyShapeFlag, Bool.or_eq_true]
      tauto
    simp [RunStep, hne, hany]
  · intro hType
    simp [RunStep, hType]

/-- C8 at concrete inputs: the explicit type `POINT` together with all eight flags is rejected
with no layer added and no output dataset; the default options are accepted. -/
theorem C8_explicit_type_with_flag_rejected_witness :
    (explicitPointAllFlags.m_type ≠ [] ∧ explicitPointAllFlags.m_multi = true) ∧
      ((RunStep ogr (.initial explicitPointAllFlags [] [pointZLayer])).1 = false ∧
        (RunStep ogr (.initial explicitPointAllFlags [] [pointZLayer])).2.outDS = [] ∧
        (RunStep ogr (.initial explicitPointAllFlags [] [pointZLayer])).2.m_outputDataset =
          none) ∧
      (RunStep ogr (.initial Options.default [] [pointZLayer])).1 = true :=
  ⟨⟨by decide, rfl⟩,
    (C8_explicit_type_with_flag_rejected ogr
      (.initial explicitPointAllFlags [] [pointZLayer])).1 (by decide) (Or.inl rfl),
    (C8_explicit_type_with_flag_rejected ogr (.initial Options.default [] [pointZLayer])).2 rfl⟩

/-! ## C9 -/

/-- C9 as stated fails: the string `GEOMETRYFOO` is none of the base names with an optional
`Z`, `M` or `ZM` suffix, and `RunStep` accepts it, because it starts with `GEOMETRY`. -/
theorem C9_counterexample_geometry_foo_accepted :
    geometryFoo ∉ geometryTypeAutoComplete [] ∧
      (RunStep ogr (.initial { Options.default with m_type := geometryFoo } []
        [pointZLayer])).1 = true := by
  decide

/-- C9, amended: for a non-empty geometry-type string with no shape or dimension flag set,
`RunStep` fails if and only if the string parses (`OGRFromOGCGeomType`) to a type whose
flattened form is the generic type and the string does not start, ignoring case, with
`GEOMETRY`; when it succeeds, `m_eType` holds the parsed type and `ConvertType` of every
converting layer returns it.  A string outside the vocabulary is rejected only under that
condition. -/
theorem C9_explicit_type_validation (api : OGRTypeApi)
    (self : GDALVectorGeomOpSetTypeAlgorithm) (hType : self.m_opts.m_type ≠ [])
    (hNoFlag : self.m_opts.m_multi = false ∧ self.m_opts.m_single = false ∧
      self.m_opts.m_linear = false ∧ self.m_opts.m_curve = false ∧ self.m_opts.m_xy = false ∧
      self.m_opts.m_xyz = false ∧ self.m_opts.m_xym = false ∧ self.m_opts.m_xyzm = false) :
    ((RunStep api self).1 = false ↔
      (wkbFlatten api (api.OGRFromOGCGeomType self.m_opts.m_type) = wkbUnknown ∧
        STARTS_WITH_CI self.m_opts.m_type ['G','E','O','M','E','T','R','Y'] = false)) ∧
    ((RunStep api self).1 = true →
      (RunStep api self).2.m_opts.m_eType = api.OGRFromOGCGeomType self.m_opts.m_type ∧
      ∀ l ∈ (RunStep api self).2.outDS, ∀ poLayer, l.2 = .setType poLayer →
        ∀ eType, ConvertType api poLayer.m_opts eType =
          api.OGRFromOGCGeomType self.m_opts.m_type) := by
  obtain ⟨h1, h2, h3, h4, h5, h6, h7, h8⟩ := hNoFlag
  have hne : self.m_opts.m_type.isEmpty = false := by
    cases h : self.m_opts.m_type with
    | nil => exact absurd h hType
    | cons c cs => rfl
  have hany : anyShapeFlag self.m_opts = false := by
    simp [anyShapeFlag, h1, h2, h3, h4, h5, h6, h7, h8]
  by_cases hbad : wkbFlatten api (api.OGRFromOGCGeomType self.m_opts.m_type) = wkbUnknown ∧
      STARTS_WITH_CI self.m_opts.m_type ['G','E','O','M','E','T','R','Y'] = false
  · have hbad2 := hbad
    simp only [Bool.not_eq_true] at hbad2
    simp [RunStep, hne, hany, hbad.1, hbad.2]
  · have hbad2 : ¬ (wkbFlatten api (api.OGRFromOGCGeomType self.m_opts.m_type) = wkbUnknown ∧
      ¬ STARTS_WITH_CI self.m_opts.m_type ['G','E','O','M','E','T','R','Y'] = true) := by
      simpa using hbad
    have hrun : RunStep api self =
        (true, { self with
          m_opts := { self.m_opts with m_eType := api.OGRFromOGCGeomType self.m_opts.m_type },
          outDS := RunStep.addLayers api
            { self.m_opts with m_eType := api.OGRFromOGCGeomType self.m_opts.m_type }
            self.m_activeLayer self.m_inputDataset,
          m_outputDataset := some (RunStep.addLayers api
            { self.m_opts with m_eType := api.OGRFromOGCGeomType self.m_opts.m_type }
            self.m_activeLayer self.m_inputDataset) }) := by
      have hbad3 : wkbFlatten api (api.OGRFromOGCGeomType self.m_opts.m_type) = wkbUnknown →
          STARTS_WITH_CI self.m_opts.m_type ['G','E','O','M','E','T','R','Y'] = true := by
        simpa using hbad
      simp only [RunStep, hne, hany]
      simpa using hbad3
    rw [hrun]
    refine ⟨by simpa using hbad, fun _ => ⟨rfl, ?_⟩⟩
    intro l hl poLayer hpo eType
    simp only [RunStep.addLayers, List.mem_map] at hl
    obtain ⟨src, _, rfl⟩ := hl
    split at hpo
    · simp only [OutputLayer.setType.injEq] at hpo
      subst hpo
      exact ConvertType_explicit api _ eType hType
    · simp at hpo


/-- C9, amended, at a concrete input: `POINTZ` is accepted and parsed to Point Z. -/
theorem C9_explicit_type_validation_witness :
    pointZName ≠ [] ∧
      (RunStep ogr (.initial { Options.default with m_type := pointZName } []
        [pointZLayer])).2.m_opts.m_eType = OGR_GT_SetZ wkbPoint :=
  ⟨by decide,
    ((C9_explicit_type_validation ogr
      (.initial { Options.default with m_type := pointZName } [] [pointZLayer]) (by decide)
      ⟨rfl, rfl, rfl, rfl, rfl, rfl, rfl, rfl⟩).2 (by decide)).1.trans (by decide)⟩

/-! ## C10 -/

/-- Under `m_skip` the loop body returns null exactly on the drop condition and never
dereferences a null coercion result. -/
theorem geomField_skip (api : OGRTypeApi) (forceTo : ForceTo) (m_opts : Options)
    (hSkip : m_opts.m_skip = true) (d : OGRGeomFieldDefn) (slot : Option OGRGeometry) :
    (TranslateFeature.geomField api forceTo m_opts d slot = .returnNull ↔
        TranslateFeature.fieldDrops api forceTo m_opts d slot) ∧
      TranslateFeature.geomField api forceTo m_opts d slot ≠ .nullDereference := by
  cases slot with
  | none => simp [TranslateFeature.geomField, TranslateFeature.fieldDrops]
  | some g =>
    by_cases hsel : (!m_opts.m_layerOnly && geomFieldSelected m_opts d) = true
    · have hsel2 : m_opts.m_layerOnly = false ∧ geomFieldSelected m_opts d = true := by
        simpa using hsel
      cases hf : forceTo g (ConvertType api m_opts g.geometryType) with
      | none =>
        simp [TranslateFeature.geomField, TranslateFeature.fieldDrops, hsel, hf, hSkip,
          hsel2.1, hsel2.2]
      | some n =>
        by_cases hc : wkbFlatten api (ConvertType api m_opts g.geometryType) ≠ wkbUnknown ∧
            n.geometryType ≠ ConvertType api m_opts g.geometryType
        · simp [TranslateFeature.geomField, TranslateFeature.fieldDrops, hsel, hf, hSkip,
            hsel2.1, hsel2.2, hc.1, hc.2]
        · have hc2 : ¬ (m_opts.m_skip = true ∧
              wkbFlatten api (ConvertType api m_opts g.geometryType) ≠ wkbUnknown ∧
              n.geometryType ≠ ConvertType api m_opts g.geometryType) := fun h => hc h.2
          simp only [TranslateFeature.geomField, hsel, hf, if_true, if_neg hc2,
            TranslateFeature.fieldDrops]
          refine ⟨⟨(fun h => by cases h), ?_⟩, (fun h => by cases h)⟩
          rintro ⟨g2, hg, -, -, h | ⟨n2, hn, h1, h2⟩⟩
          · cases hg; rw [hf] at h; cases h
          · cases hg; rw [hf] at hn; cases hn; exact absurd ⟨h1, h2⟩ hc
    · have hsel2 : ¬ (m_opts.m_layerOnly = false ∧ geomFieldSelected m_opts d = true) := by
        simpa using hsel
      have hsel3 : (!m_opts.m_layerOnly && geomFieldSelected m_opts d) = false := by
        simpa using hsel
      simp only [TranslateFeature.geomField, hsel3, TranslateFeature.fieldDrops]
      refine ⟨⟨(fun h => by simp at h), ?_⟩, (by simp)⟩
      rintro ⟨g2, -, h1, h2, -⟩
      exact absurd ⟨h1, h2⟩ hsel2

/-- Under `m_skip` the loop stops exactly when some geometry field meets the drop condition,
and it stops only through `return nullptr`. -/
theorem loop_skip (api : OGRTypeApi) (forceTo : ForceTo) (m_opts : Options)
    (hSkip : m_opts.m_skip = true) :
    ∀ (defns : List OGRGeomFieldDefn) (geoms : List (Option OGRGeometry)),
      ((∃ stop, TranslateFeature.loop api forceTo m_opts defns geoms = .inl stop) ↔
        ∃ p ∈ defns.zip geoms, TranslateFeature.fieldDrops api forceTo m_opts p.1 p.2) ∧
      ∀ stop, TranslateFeature.loop api forceTo m_opts defns geoms = .inl stop →
        stop = .returnNull := by
  intro defns
  induction defns with
  | nil => intro geoms; simp [TranslateFeature.loop]
  | cons d ds ih =>
    intro geoms
    cases geoms with
    | nil => simp [TranslateFeature.loop]
    | cons g gs =>
      obtain ⟨hret, hnd⟩ := geomField_skip api forceTo m_opts hSkip d g
      obtain ⟨ih1, ih2⟩ := ih gs
      cases hstep : TranslateFeature.geomField api forceTo m_opts d g with
      | next n =>
        have hno : ¬ TranslateFeature.fieldDrops api forceTo m_opts d g := by
          intro h; rw [hret.2 h] at hstep; cases hstep
        cases hrest : TranslateFeature.loop api forceTo m_opts ds gs with
        | inr rest =>
          have hnone : ¬ ∃ p ∈ ds.zip gs,
              TranslateFeature.fieldDrops api forceTo m_opts p.1 p.2 := by
            intro h; obtain ⟨stop, hs⟩ := ih1.2 h; rw [hrest] at hs; cases hs
          simp only [TranslateFeature.loop, hstep, hrest, List.zip_cons_cons, List.mem_cons]
          refine ⟨⟨(fun ⟨_, h⟩ => by cases h), ?_⟩, (fun _ h => by cases h)⟩
          rintro ⟨p, rfl | hp, hd⟩
          · exact absurd hd hno
          · exact absurd ⟨p, hp, hd⟩ hnone
        | inl stop =>
          have hs : stop = .returnNull := ih2 stop hrest
          obtain ⟨p, hp, hd⟩ := ih1.1 ⟨stop, hrest⟩
          simp only [TranslateFeature.loop, hstep, hrest, List.zip_cons_cons, List.mem_cons]
          refine ⟨⟨fun _ => ⟨p, Or.inr hp, hd⟩, fun _ => ⟨stop, rfl⟩⟩, ?_⟩
          intro stop2 h2
          cases h2
          exact hs
      | returnNull =>
        have hd : TranslateFeature.fieldDrops api forceTo m_opts d g := hret.1 hstep
        simp only [TranslateFeature.loop, hstep, List.zip_cons_cons, List.mem_cons]
        refine ⟨⟨fun _ => ⟨(d, g), Or.inl rfl, hd⟩, fun _ => ⟨_, rfl⟩⟩, ?_⟩
        intro stop2 h2
        cases h2
        rfl
      | nullDereference => exact absurd hstep hnd


/-- C10 as stated fails: with `--xy --skip` the target of a Point Z value is Point; a coercion
that returns the value as it is gives a geometry with the base shape of the target, different
from it only in the Z bit, and the feature, whose only geometry this is, is dropped. -/
theorem C10_counterexample_dimension_mismatch_drops :
    xySkip.m_skip = true ∧
      pointZFeature.geometries = [some pointZGeometry] ∧
      ConvertType ogr xySkip pointZGeometry.geometryType = wkbPoint ∧
      keepGeometry pointZGeometry wkbPoint = some pointZGeometry ∧
      wkbFlatten ogr pointZGeometry.geometryType = wkbFlatten ogr wkbPoint ∧
      TranslateFeature ogr keepGeometry
        (GDALVectorGeomOpSetTypeAlgorithmLayer.create ogr pointZLayer xySkip) pointZFeature =
          .absent := by
  decide

/-- C10, amended: with `m_skip` set, `TranslateFeature` returns absent if and only if some
geometry field that is non-null and selected for conversion (`m_layerOnly` off and the name
passing the active-geometry filter) either gets no result from the coercion, or has a target
whose flattened form is not the generic type and a coerced geometry whose type, Z and M bits
included, is not the target type.  One such field is enough, whatever the other fields. -/
theorem C10_skip_drops_on_failed_coercion (api : OGRTypeApi) (forceTo : ForceTo)
    (layer : GDALVectorGeomOpSetTypeAlgorithmLayer) (poSrcFeature : OGRFeature)
    (hSkip : layer.m_opts.m_skip = true) :
    TranslateFeature api forceTo layer poSrcFeature = .absent ↔
      ∃ p ∈ layer.m_poFeatureDefn.geomFields.zip poSrcFeature.geometries,
        ∃ poGeom, p.2 = some poGeom ∧ layer.m_opts.m_layerOnly = false ∧
          geomFieldSelected layer.m_opts p.1 = true ∧
          (forceTo poGeom (ConvertType api layer.m_opts poGeom.geometryType) = none ∨
            ∃ poNewGeom,
              forceTo poGeom (ConvertType api layer.m_opts poGeom.geometryType) =
                some poNewGeom ∧
              wkbFlatten api (ConvertType api layer.m_opts poGeom.geometryType) ≠ wkbUnknown ∧
              poNewGeom.geometryType ≠ ConvertType api layer.m_opts poGeom.geometryType) := by
  obtain ⟨h1, h2⟩ := loop_skip api forceTo layer.m_opts hSkip layer.m_poFeatureDefn.geomFields
    poSrcFeature.geometries
  unfold TranslateFeature.fieldDrops at h1
  rw [← h1]
  unfold TranslateFeature
  cases hloop : TranslateFeature.loop api forceTo layer.m_opts layer.m_poFeatureDefn.geomFields
      poSrcFeature.geometries with
  | inr geoms => simp
  | inl stop =>
    have hs := h2 stop hloop
    subst hs
    simp

/-- C10, amended, at a concrete input: the Point Z feature under `--xy --skip` with the
coercion that returns the geometry as it is. -/
theorem C10_skip_drops_on_failed_coercion_witness :
    (GDALVectorGeomOpSetTypeAlgorithmLayer.create ogr pointZLayer xySkip).m_opts.m_skip = true ∧
      TranslateFeature ogr keepGeometry
        (GDALVectorGeomOpSetTypeAlgorithmLayer.create ogr pointZLayer xySkip) pointZFeature =
          .absent :=
  ⟨rfl,
    (C10_skip_drops_on_failed_coercion ogr keepGeometry
      (GDALVectorGeomOpSetTypeAlgorithmLayer.create ogr pointZLayer xySkip) pointZFeature
      rfl).2
      ⟨(⟨['g','e','o','m'], wkbPoint, some 4326⟩, some pointZGeometry), by decide,
        pointZGeometry, rfl, rfl, rfl, Or.inr ⟨pointZGeometry, rfl, by decide, by decide⟩⟩⟩

/-! ## TranslateFeature: general facts -/

/-- When the loop of `TranslateFeature` runs to its end, the new slots are as many as the old
ones, and the slot of every geometry field is what the loop body left there. -/
theorem loop_inr_getElem (api : OGRTypeApi) (forceTo : ForceTo) (m_opts : Options) :
    ∀ (defns : List OGRGeomFieldDefn) (geoms out : List (Option OGRGeometry)),
      TranslateFeature.loop api forceTo m_opts defns geoms = .inr out →
      out.length = geoms.length ∧
        ∀ (i : Nat) (d : OGRGeomFieldDefn) (g : Option OGRGeometry),
          defns[i]? = some d → geoms[i]? = some g →
          ∃ n, TranslateFeature.geomField api forceTo m_opts d g = .next n ∧ out[i]? = some n := by
  intro defns
  induction defns with
  | nil =>
    intro geoms out h
    simp only [TranslateFeature.loop, Sum.inr.injEq] at h
    subst h
    exact ⟨rfl, fun i d g hd _ => by simp at hd⟩
  | cons d0 ds ih =>
    intro geoms out h
    cases geoms with
    | nil =>
      simp only [TranslateFeature.loop, Sum.inr.injEq] at h
      subst h
      exact ⟨rfl, fun i d g _ hg => by simp at hg⟩
    | cons g0 gs =>
      cases hstep : TranslateFeature.geomField api forceTo m_opts d0 g0 with
      | next n0 =>
        cases hrest : TranslateFeature.loop api forceTo m_opts ds gs with
        | inr rest =>
          simp only [TranslateFeature.loop, hstep, hrest, Sum.inr.injEq] at h
          subst h
          obtain ⟨hlen, hget⟩ := ih gs rest hrest
          refine ⟨by simp [hlen], ?_⟩
          intro i d g hd hg
          cases i with
          | zero =>
            simp only [List.getElem?_cons_zero, Option.some.injEq] at hd hg
            subst hd; subst hg
            exact ⟨n0, hstep, by simp⟩
          | succ j =>
            simp only [List.getElem?_cons_succ] at hd hg
            obtain ⟨n, hn, ho⟩ := hget j d g hd hg
            exact ⟨n, hn, by simpa using ho⟩
        | inl stop =>
          simp [TranslateFeature.loop, hstep, hrest] at h
      | returnNull => simp [TranslateFeature.loop, hstep] at h
      | nullDereference => simp [TranslateFeature.loop, hstep] at h

/-- The loop body on a null slot, and on a geometry of a field that is not to be converted
(`m_layerOnly` set, or the name not passing the active-geometry filter): the coercion is not
consulted, a geometry only takes the spatial reference of the field. -/
theorem geomField_passthrough (api : OGRTypeApi) (forceTo : ForceTo) (m_opts : Options)
    (d : OGRGeomFieldDefn) :
    TranslateFeature.geomField api forceTo m_opts d none = .next none ∧
      ∀ g, ¬ (m_opts.m_layerOnly = false ∧ geomFieldSelected m_opts d = true) →
        TranslateFeature.geomField api forceTo m_opts d (some g) =
          .next (some { g with spatialReference := d.spatialRef }) := by
  refine ⟨rfl, fun g h => ?_⟩
  have h2 : (!m_opts.m_layerOnly && geomFieldSelected m_opts d) = false := by
    cases h1 : m_opts.m_layerOnly <;> cases h3 : geomFieldSelected m_opts d <;> simp_all
  simp [TranslateFeature.geomField, h2]

/-- The loop runs to its end when every loop body does. -/
theorem loop_all_next (api : OGRTypeApi) (forceTo : ForceTo) (m_opts : Options) :
    ∀ (defns : List OGRGeomFieldDefn) (geoms : List (Option OGRGeometry)),
      (∀ p ∈ defns.zip geoms,
        ∃ n, TranslateFeature.geomField api forceTo m_opts p.1 p.2 = .next n) →
      ∃ out, TranslateFeature.loop api forceTo m_opts defns geoms = .inr out := by
  intro defns
  induction defns with
  | nil => intro geoms _; exact ⟨geoms, by simp [TranslateFeature.loop]⟩
  | cons d0 ds ih =>
    intro geoms h
    cases geoms with
    | nil => exact ⟨[], by simp [TranslateFeature.loop]⟩
    | cons g0 gs =>
      obtain ⟨n0, hn0⟩ := h (d0, g0) (by simp)
      obtain ⟨rest, hrest⟩ := ih gs (fun p hp => h p (by simp [hp]))
      exact ⟨n0 :: rest, by simp [TranslateFeature.loop, hn0, hrest]⟩

/-- The result of `TranslateFeature` is a feature exactly when the loop runs to its end, and the
feature is then the source feature bound to the adapted definition with the new slots. -/
theorem TranslateFeature_feature_iff (api : OGRTypeApi) (forceTo : ForceTo)
    (layer : GDALVectorGeomOpSetTypeAlgorithmLayer) (poSrcFeature out : OGRFeature) :
    TranslateFeature api forceTo layer poSrcFeature = .feature out ↔
      ∃ geoms, TranslateFeature.loop api forceTo layer.m_opts layer.m_poFeatureDefn.geomFields
          poSrcFeature.geometries = .inr geoms ∧
        out = { poSrcFeature with defn := layer.m_poFeatureDefn, geometries := geoms } := by
  unfold TranslateFeature
  cases hloop : TranslateFeature.loop api forceTo layer.m_opts layer.m_poFeatureDefn.geomFields
      poSrcFeature.geometries with
  | inr geoms =>
    simp only [TranslateResult.feature.injEq, Sum.inr.injEq]
    constructor
    · intro h; exact ⟨geoms, rfl, h.symm⟩
    · rintro ⟨g2, rfl, h⟩; exact h.symm
  | inl stop =>
    cases stop <;> simp

/-- With `m_skip` off the loop body never reaches `return nullptr`. -/
theorem geomField_no_skip (api : OGRTypeApi) (forceTo : ForceTo) (m_opts : Options)
    (hSkip : m_opts.m_skip = false) (d : OGRGeomFieldDefn) (slot : Option OGRGeometry) :
    TranslateFeature.geomField api forceTo m_opts d slot ≠ .returnNull := by
  cases slot with
  | none => simp [TranslateFeature.geomField]
  | some g =>
    cases hsel : (!m_opts.m_layerOnly && geomFieldSelected m_opts d) with
    | false => simp [TranslateFeature.geomField, hsel]
    | true =>
      cases hf : forceTo g (ConvertType api m_opts g.geometryType) <;>
        simp [TranslateFeature.geomField, hsel, hf, hSkip]

/-- With `m_skip` off the loop stops early only through the null dereference. -/
theorem loop_no_skip (api : OGRTypeApi) (forceTo : ForceTo) (m_opts : Options)
    (hSkip : m_opts.m_skip = false) :
    ∀ (defns : List OGRGeomFieldDefn) (geoms : List (Option OGRGeometry)) (stop : GeomFieldStep),
      TranslateFeature.loop api forceTo m_opts defns geoms = .inl stop →
      stop = .nullDereference := by
  intro defns
  induction defns with
  | nil => intro geoms stop h; simp [TranslateFeature.loop] at h
  | cons d0 ds ih =>
    intro geoms stop h
    cases geoms with
    | nil => simp [TranslateFeature.loop] at h
    | cons g0 gs =>
      have hnr := geomField_no_skip api forceTo m_opts hSkip d0 g0
      cases hstep : TranslateFeature.geomField api forceTo m_opts d0 g0 with
      | next n0 =>
        cases hrest : TranslateFeature.loop api forceTo m_opts ds gs with
        | inr rest => simp [TranslateFeature.loop, hstep, hrest] at h
        | inl stop2 =>
          simp only [TranslateFeature.loop, hstep, hrest, Sum.inl.injEq] at h
          subst h
          exact ih gs stop2 hrest
      | returnNull => exact absurd hstep hnr
      | nullDereference =>
        simp only [TranslateFeature.loop, hstep, Sum.inl.injEq] at h
        exact h.symm

/-- With `m_skip` off `TranslateFeature` never returns absent. -/
theorem TranslateFeature_no_skip_not_absent (api : OGRTypeApi) (forceTo : ForceTo)
    (layer : GDALVectorGeomOpSetTypeAlgorithmLayer) (poSrcFeature : OGRFeature)
    (hSkip : layer.m_opts.m_skip = false) :
    TranslateFeature api forceTo layer poSrcFeature ≠ .absent := by
  unfold TranslateFeature
  cases hloop : TranslateFeature.loop api forceTo layer.m_opts layer.m_poFeatureDefn.geomFields
      poSrcFeature.geometries with
  | inr geoms => simp
  | inl stop =>
    have := loop_no_skip api forceTo layer.m_opts hSkip _ _ stop hloop
    subst this
    simp

/-- The loop of `TranslateFeature` consults the coercion only through the loop bodies: two
coercions that give the same loop body on every geometry field give the same loop. -/
theorem loop_congr (api : OGRTypeApi) (forceTo1 forceTo2 : ForceTo) (m_opts : Options) :
    ∀ (defns : List OGRGeomFieldDefn) (geoms : List (Option OGRGeometry)),
      (∀ p ∈ defns.zip geoms,
        TranslateFeature.geomField api forceTo1 m_opts p.1 p.2 =
          TranslateFeature.geomField api forceTo2 m_opts p.1 p.2) →
      TranslateFeature.loop api forceTo1 m_opts defns geoms =
        TranslateFeature.loop api forceTo2 m_opts defns geoms := by
  intro defns
  induction defns with
  | nil => intro geoms _; simp [TranslateFeature.loop]
  | cons d0 ds ih =>
    intro geoms h
    cases geoms with
    | nil => simp [TranslateFeature.loop]
    | cons g0 gs =>
      have h0 := h (d0, g0) (by simp)
      have hrest := ih gs (fun p hp => h p (by simp [hp]))
      simp only [TranslateFeature.loop, h0, hrest]

/-- The selection test, in words: the active-geometry name is empty or is the name of the
field. -/
theorem geomFieldSelected_iff (m_opts : Options) (d : OGRGeomFieldDefn) :
    geomFieldSelected m_opts d = true ↔ (m_opts.m_geomField = [] ∨ m_opts.m_geomField = d.name) := by
  simp [geomFieldSelected, List.isEmpty_iff]

/-- The geometry fields of the adapted definition, one by one. -/
theorem create_geomFields_getElem (api : OGRTypeApi) (oSrcLayer : OGRLayer) (opts : Options)
    (i : Nat) (d : OGRGeomFieldDefn) (hd : oSrcLayer.layerDefn.geomFields[i]? = some d) :
    (GDALVectorGeomOpSetTypeAlgorithmLayer.create api oSrcLayer opts).m_poFeatureDefn.geomFields[i]? =
      some (if opts.m_featureGeomOnly = true then d
        else if geomFieldSelected opts d = true then
          { d with type := ConvertType api opts d.type }
        else d) := by
  cases hf : opts.m_featureGeomOnly <;>
    simp [GDALVectorGeomOpSetTypeAlgorithmLayer.create, hf, hd]

/-! ## C11 -/

/-- With `m_skip` off, a selected geometry for which the coercion gives no result makes the
loop body dereference the null result, whatever the library functions. -/
theorem geomField_no_skip_null (api : OGRTypeApi) (forceTo : ForceTo) (m_opts : Options)
    (d : OGRGeomFieldDefn) (g : OGRGeometry) (hSkip : m_opts.m_skip = false)
    (hLayerOnly : m_opts.m_layerOnly = false) (hSel : geomFieldSelected m_opts d = true)
    (hNull : forceTo g (ConvertType api m_opts g.geometryType) = none) :
    TranslateFeature.geomField api forceTo m_opts d (some g) = .nullDereference := by
  simp [TranslateFeature.geomField, hSkip, hLayerOnly, hSel, hNull]

/-- C11: the code with `m_skip` off at a feature whose geometry the coercion cannot convert.
The claim asks for the feature with a null geometry in that field; `TranslateFeature` reaches
`poNewGeom->assignSpatialReference` with a null `poNewGeom` and returns no feature. -/
theorem C11_no_skip_null_coercion_dereferenced :
    (GDALVectorGeomOpSetTypeAlgorithmLayer.create ogr pointZLayer multiOnly).m_opts.m_skip =
        false ∧
      pointZFeature.geometries = [some pointZGeometry] ∧
      failCoercion pointZGeometry (ConvertType ogr multiOnly pointZGeometry.geometryType) =
        none ∧
      TranslateFeature ogr failCoercion
        (GDALVectorGeomOpSetTypeAlgorithmLayer.create ogr pointZLayer multiOnly) pointZFeature =
          .nullDereference := by
  decide

/-- With `m_skip` off, `TranslateFeature` never returns absent; it returns a feature exactly
when no selected geometry is left without a coercion result, and that feature has the
identifier and the attributes of the source feature. -/
theorem TranslateFeature_no_skip (api : OGRTypeApi) (forceTo : ForceTo)
    (layer : GDALVectorGeomOpSetTypeAlgorithmLayer) (poSrcFeature : OGRFeature)
    (hSkip : layer.m_opts.m_skip = false) :
    TranslateFeature api forceTo layer poSrcFeature ≠ .absent ∧
      (∀ out, TranslateFeature api forceTo layer poSrcFeature = .feature out →
        out.fid = poSrcFeature.fid ∧ out.attributes = poSrcFeature.attributes ∧
          out.defn = layer.m_poFeatureDefn) ∧
      ((∀ p ∈ layer.m_poFeatureDefn.geomFields.zip poSrcFeature.geometries, ∀ g,
          p.2 = some g → layer.m_opts.m_layerOnly = false →
          geomFieldSelected layer.m_opts p.1 = true →
          forceTo g (ConvertType api layer.m_opts g.geometryType) ≠ none) →
        ∃ out, TranslateFeature api forceTo layer poSrcFeature = .feature out) := by
  refine ⟨TranslateFeature_no_skip_not_absent api forceTo layer poSrcFeature hSkip, ?_, ?_⟩
  · intro out h
    obtain ⟨geoms, _, rfl⟩ := (TranslateFeature_feature_iff api forceTo layer poSrcFeature out).1 h
    exact ⟨rfl, rfl, rfl⟩
  · intro h
    have hall : ∀ p ∈ layer.m_poFeatureDefn.geomFields.zip poSrcFeature.geometries,
        ∃ n, TranslateFeature.geomField api forceTo layer.m_opts p.1 p.2 = .next n := by
      intro p hp
      cases hslot : p.2 with
      | none => exact ⟨none, by simp [TranslateFeature.geomField]⟩
      | some g =>
        by_cases hsel : layer.m_opts.m_layerOnly = false ∧
            geomFieldSelected layer.m_opts p.1 = true
        · have hne := h p hp g hslot hsel.1 hsel.2
          cases hf : forceTo g (ConvertType api layer.m_opts g.geometryType) with
          | none => exact absurd hf hne
          | some n =>
            exact ⟨some { n with spatialReference := p.1.spatialRef },
              by simp [TranslateFeature.geomField, hsel.1, hsel.2, hf, hSkip]⟩
        · exact ⟨_, (geomField_passthrough api forceTo layer.m_opts p.1).2 g hsel⟩
    obtain ⟨geoms, hg⟩ := loop_all_next api forceTo layer.m_opts _ _ hall
    exact ⟨_, (TranslateFeature_feature_iff api forceTo layer poSrcFeature _).2 ⟨geoms, hg, rfl⟩⟩

/-! ## C12 -/

/-- C12: the adapted definition has as many geometry fields as the source definition, with the
same names in the same order, and the declared type of field `i` is the source type when
`m_featureGeomOnly` is set, and otherwise `ConvertType` of the source type when the
active-geometry name is empty or is the name of the field, the source type when it is another
name. -/
theorem C12_adapted_schema_types (api : OGRTypeApi) (oSrcLayer : OGRLayer) (opts : Options) :
    (GDALVectorGeomOpSetTypeAlgorithmLayer.create api oSrcLayer opts).m_poFeatureDefn.geomFields.length
        = oSrcLayer.layerDefn.geomFields.length ∧
      (GDALVectorGeomOpSetTypeAlgorithmLayer.create api oSrcLayer opts).m_poFeatureDefn.geomFields.map
          OGRGeomFieldDefn.name = oSrcLayer.layerDefn.geomFields.map OGRGeomFieldDefn.name ∧
      ∀ (i : Nat) (d : OGRGeomFieldDefn), oSrcLayer.layerDefn.geomFields[i]? = some d →
        ∃ d', (GDALVectorGeomOpSetTypeAlgorithmLayer.create api oSrcLayer
            opts).m_poFeatureDefn.geomFields[i]? = some d' ∧
          d'.name = d.name ∧
          d'.type =
            if opts.m_featureGeomOnly = true then d.type
            else if opts.m_geomField = [] ∨ opts.m_geomField = d.name then
              ConvertType api opts d.type
            else d.type := by
  refine ⟨?_, ?_, ?_⟩
  · cases hf : opts.m_featureGeomOnly <;>
      simp [GDALVectorGeomOpSetTypeAlgorithmLayer.create, hf]
  · cases hf : opts.m_featureGeomOnly
    · simp only [GDALVectorGeomOpSetTypeAlgorithmLayer.create, hf, Bool.not_false, if_true,
        List.map_map]
      apply List.map_congr_left
      intro d _
      simp only [Function.comp]
      split <;> rfl
    · simp [GDALVectorGeomOpSetTypeAlgorithmLayer.create, hf]
  · intro i d hd
    refine ⟨_, create_geomFields_getElem api oSrcLayer opts i d hd, ?_, ?_⟩
    · cases hf : opts.m_featureGeomOnly <;> simp
      split <;> rfl
    · cases hf : opts.m_featureGeomOnly
      · by_cases hsel : geomFieldSelected opts d = true
        · have h2 := (geomFieldSelected_iff opts d).1 hsel
          simp [hsel, h2]
        · have h2 : ¬ (opts.m_geomField = [] ∨ opts.m_geomField = d.name) :=
            fun h => hsel ((geomFieldSelected_iff opts d).2 h)
          simp [hsel, h2]
      · simp

/-- C12 at a concrete input: under `--multi --active-geometry geom2` the field `geom2`, declared
Point in the source, is declared multi-point in the adapted definition. -/
theorem C12_adapted_schema_types_witness :
    twoFieldLayer.layerDefn.geomFields[1]? = some ⟨['g','e','o','m','2'], wkbPoint, some 3857⟩ ∧
      ∃ d', (GDALVectorGeomOpSetTypeAlgorithmLayer.create ogr twoFieldLayer
          multiGeom2).m_poFeatureDefn.geomFields[1]? = some d' ∧
        d'.name = ['g','e','o','m','2'] ∧ d'.type = wkbMultiPoint :=
  ⟨by decide, by
    obtain ⟨d', h1, h2, h3⟩ := (C12_adapted_schema_types ogr twoFieldLayer multiGeom2).2.2 1
      ⟨['g','e','o','m','2'], wkbPoint, some 3857⟩ (by decide)
    exact ⟨d', h1, h2, h3.trans (by decide)⟩⟩

/-! ## C13 -/

/-- C13: in the feature `TranslateFeature` returns, geometry field `i` holds the geometry of
the source feature with only the spatial reference reassigned to that of the field (same type,
same coordinates, whatever the coercion would do) when `m_layerOnly` is set, or when the
active-geometry name is non-empty and is not the name of field `i`; and with `m_layerOnly` set
a feature is always returned. -/
theorem C13_unselected_geometry_unchanged (api : OGRTypeApi) (forceTo : ForceTo)
    (layer : GDALVectorGeomOpSetTypeAlgorithmLayer) (poSrcFeature : OGRFeature) :
    (layer.m_opts.m_layerOnly = true →
        ∃ out, TranslateFeature api forceTo layer poSrcFeature = .feature out) ∧
      ∀ out, TranslateFeature api forceTo layer poSrcFeature = .feature out →
        ∀ (i : Nat) (d : OGRGeomFieldDefn) (g : OGRGeometry),
          layer.m_poFeatureDefn.geomFields[i]? = some d →
          poSrcFeature.geometries[i]? = some (some g) →
          (layer.m_opts.m_layerOnly = true ∨
            (layer.m_opts.m_geomField ≠ [] ∧ layer.m_opts.m_geomField ≠ d.name)) →
          out.geometries[i]? = some (some { g with spatialReference := d.spatialRef }) := by
  constructor
  · intro hLayerOnly
    have hall : ∀ p ∈ layer.m_poFeatureDefn.geomFields.zip poSrcFeature.geometries,
        ∃ n, TranslateFeature.geomField api forceTo layer.m_opts p.1 p.2 = .next n := by
      intro p _
      cases hslot : p.2 with
      | none => exact ⟨none, rfl⟩
      | some g =>
        exact ⟨_, (geomField_passthrough api forceTo layer.m_opts p.1).2 g
          (fun h => by rw [hLayerOnly] at h; exact Bool.noConfusion h.1)⟩
    obtain ⟨geoms, hg⟩ := loop_all_next api forceTo layer.m_opts _ _ hall
    exact ⟨_, (TranslateFeature_feature_iff api forceTo layer poSrcFeature _).2 ⟨geoms, hg, rfl⟩⟩
  · intro out h i d g hd hg hEx
    obtain ⟨geoms, hloop, rfl⟩ :=
      (TranslateFeature_feature_iff api forceTo layer poSrcFeature out).1 h
    obtain ⟨_, hget⟩ := loop_inr_getElem api forceTo layer.m_opts _ _ _ hloop
    obtain ⟨n, hn, ho⟩ := hget i d (some g) hd hg
    have hnot : ¬ (layer.m_opts.m_layerOnly = false ∧
        geomFieldSelected layer.m_opts d = true) := by
      rintro ⟨h1, h2⟩
      rcases hEx with h3 | ⟨h3, h4⟩
      · rw [h1] at h3; exact Bool.noConfusion h3
      · rcases (geomFieldSelected_iff layer.m_opts d).1 h2 with h5 | h5
        · exact h3 h5
        · exact h4 h5
    rw [(geomField_passthrough api forceTo layer.m_opts d).2 g hnot] at hn
    cases hn
    exact ho

/-- C13 at a concrete input: with active-geometry `geom2` on the fields `geom1`, `geom2`, the
point in `geom1` is returned as it is with the spatial reference of `geom1`, while the point in
`geom2` is coerced to the multi-point type. -/
theorem C13_unselected_geometry_unchanged_witness :
    TranslateFeature ogr echoTarget
        (GDALVectorGeomOpSetTypeAlgorithmLayer.create ogr twoFieldLayer multiGeom2)
        twoFieldFeature = .feature twoFieldFeatureConverted ∧
      twoFieldFeatureConverted.geometries[0]? =
        some (some { pointGeometry with spatialReference := some 4326 }) ∧
      twoFieldFeatureConverted.geometries[1]? =
        some (some { pointGeometry with
          geometryType := wkbMultiPoint, spatialReference := some 3857 }) :=
  ⟨by decide,
    (C13_unselected_geometry_unchanged ogr echoTarget
      (GDALVectorGeomOpSetTypeAlgorithmLayer.create ogr twoFieldLayer multiGeom2)
      twoFieldFeature).2 twoFieldFeatureConverted (by decide) 0
      ⟨['g','e','o','m','1'], wkbPoint, some 4326⟩ pointGeometry (by decide) (by decide)
      (Or.inr ⟨by decide, by decide⟩),
    by decide⟩

/-! ## C14 -/

/-- With `m_skip` off a pass over source features that runs to its end appends one translated
feature per source feature. -/
theorem translateAll_length (api : OGRTypeApi) (forceTo : ForceTo)
    (layer : GDALVectorGeomOpSetTypeAlgorithmLayer) (hSkip : layer.m_opts.m_skip = false) :
    ∀ (features apoOutFeatures out : List OGRFeature),
      translateAll api forceTo layer features apoOutFeatures = some out →
      out.length = apoOutFeatures.length + features.length := by
  intro features
  induction features with
  | nil =>
    intro acc out h
    simp only [translateAll, Option.some.injEq] at h
    subst h
    simp
  | cons f fs ih =>
    intro acc out h
    have hna := TranslateFeature_no_skip_not_absent api forceTo layer f hSkip
    cases hf : TranslateFeature api forceTo layer f with
    | feature g =>
      simp only [translateAll, TranslateFeature.push, hf] at h
      have := ih _ _ h
      simp only [List.length_append, List.length_cons, List.length_nil] at this ⊢
      omega
    | absent => exact absurd hf hna
    | nullDereference => simp [translateAll, TranslateFeature.push, hf] at h

/-- C14 as stated fails: a source layer with two features that answers -1 to an unforced
count.  With the default options the layer delegates and returns -1, while iterating and
translating the source yields two features. -/
theorem C14_counterexample_unforced_count :
    (GDALVectorGeomOpSetTypeAlgorithmLayer.create ogr twoFieldLayer Options.default).m_opts.m_skip
        = false ∧
      GetFeatureCount (fun _ => 0)
        (GDALVectorGeomOpSetTypeAlgorithmLayer.create ogr twoFieldLayer Options.default) false =
          -1 ∧
      (translateAll ogr keepGeometry
        (GDALVectorGeomOpSetTypeAlgorithmLayer.create ogr twoFieldLayer Options.default)
        twoFieldLayer.features []).map List.length = some 2 := by
  decide

/-- C14, amended: `GetFeatureCount(bForce)` returns the source layer's `GetFeatureCount(bForce)`
when `m_skip` is off and neither an attribute filter nor a spatial filter is set, and the
inherited generic count otherwise.  In the delegating case translation drops no feature: a
pass that iterates and translates the source to its end yields one feature per source
feature, so the result is the number of features of that pass whenever the answer of the
source layer is the number of its features. -/
theorem C14_feature_count_delegation (baseGetFeatureCount : Bool → Int) (api : OGRTypeApi)
    (forceTo : ForceTo) (layer : GDALVectorGeomOpSetTypeAlgorithmLayer) (bForce : Bool) :
    ((layer.m_opts.m_skip = false ∧ layer.m_poAttrQuery = none ∧ layer.m_poFilterGeom = none) →
        GetFeatureCount baseGetFeatureCount layer bForce =
          layer.m_srcLayer.featureCount bForce ∧
        ∀ out, translateAll api forceTo layer layer.m_srcLayer.features [] = some out →
          out.length = layer.m_srcLayer.features.length ∧
          (layer.m_srcLayer.featureCount bForce = layer.m_srcLayer.features.length →
            GetFeatureCount baseGetFeatureCount layer bForce = out.length)) ∧
      (¬ (layer.m_opts.m_skip = false ∧ layer.m_poAttrQuery = none ∧
          layer.m_poFilterGeom = none) →
        GetFeatureCount baseGetFeatureCount layer bForce = baseGetFeatureCount bForce) := by
  constructor
  · rintro ⟨hSkip, hAttr, hFilt⟩
    have hdel : GetFeatureCount baseGetFeatureCount layer bForce =
        layer.m_srcLayer.featureCount bForce := by
      simp [GetFeatureCount, hSkip, hAttr, hFilt]
    refine ⟨hdel, fun out hout => ?_⟩
    have hlen := translateAll_length api forceTo layer hSkip _ _ _ hout
    simp only [List.length_nil, Nat.zero_add] at hlen
    exact ⟨hlen, fun hsrc => by rw [hdel, hsrc, hlen]⟩
  · intro h
    have hc : (!layer.m_opts.m_skip && layer.m_poAttrQuery.isNone &&
        layer.m_poFilterGeom.isNone) = false := by
      cases h1 : layer.m_opts.m_skip <;> cases h2 : layer.m_poAttrQuery <;>
        cases h3 : layer.m_poFilterGeom <;> simp_all
    simp [GetFeatureCount, hc]

/-- C14, amended, at a concrete input: the forced count of the two-field layer under the
default options is delegated, and is the number of features of a complete pass. -/
theorem C14_feature_count_delegation_witness :
    GetFeatureCount (fun _ => 0)
        (GDALVectorGeomOpSetTypeAlgorithmLayer.create ogr twoFieldLayer Options.default) true =
      twoFieldLayer.featureCount true ∧
      translateAll ogr keepGeometry
        (GDALVectorGeomOpSetTypeAlgorithmLayer.create ogr twoFieldLayer Options.default)
        twoFieldLayer.features [] =
          some [{ twoFieldFeature with
                  geometries := [some { pointGeometry with spatialReference := some 4326 },
                    some { pointGeometry with spatialReference := some 3857 }] },
                { twoFieldLineFeature with
                  geometries := [some { pointGeometry with spatialReference := some 4326 },
                    some { lineGeometry with spatialReference := some 3857 }] }] ∧
      GetFeatureCount (fun _ => 0)
        (GDALVectorGeomOpSetTypeAlgorithmLayer.create ogr twoFieldLayer Options.default) true =
          2 :=
  ⟨((C14_feature_count_delegation (fun _ => 0) ogr keepGeometry
      (GDALVectorGeomOpSetTypeAlgorithmLayer.create ogr twoFieldLayer Options.default) true).1
      ⟨rfl, rfl, rfl⟩).1,
    by decide, by decide⟩

/-! ## C15 -/

/-- The comparison `EQUAL` is equality after upper-casing. -/
theorem EQUAL_iff (a b : CString) : EQUAL a b = true ↔ a.map Char.toUpper = b.map Char.toUpper := by
  induction a generalizing b with
  | nil => cases b <;> simp [EQUAL]
  | cons x xs ih => cases b <;> simp [EQUAL, ih]

/-- C15: `TestCapability(name)` returns the answer of the source layer when the name is,
ignoring case, one of `RandomRead`, `CurveGeometries`, `MeasuredGeometries`, `ZGeometries`,
`FastGetExtent`, `StringsAsUTF8`, or is `FastFeatureCount` while `m_skip` is off and no attribute
or spatial filter is set; for any other name, and for `FastFeatureCount` when `m_skip` is on or a
filter is set, it returns false. -/
theorem C15_test_capability_allow_list (layer : GDALVectorGeomOpSetTypeAlgorithmLayer)
    (pszCap : CString) :
    ((EQUAL pszCap OLCRandomRead = true ∨ EQUAL pszCap OLCCurveGeometries = true ∨
        EQUAL pszCap OLCMeasuredGeometries = true ∨ EQUAL pszCap OLCZGeometries = true ∨
        EQUAL pszCap OLCFastGetExtent = true ∨ EQUAL pszCap OLCStringsAsUTF8 = true ∨
        (EQUAL pszCap OLCFastFeatureCount = true ∧ layer.m_opts.m_skip = false ∧
          layer.m_poAttrQuery = none ∧ layer.m_poFilterGeom = none)) →
      TestCapability layer pszCap = layer.m_srcLayer.testCapability pszCap) ∧
    (¬ (EQUAL pszCap OLCRandomRead = true ∨ EQUAL pszCap OLCCurveGeometries = true ∨
        EQUAL pszCap OLCMeasuredGeometries = true ∨ EQUAL pszCap OLCZGeometries = true ∨
        EQUAL pszCap OLCFastGetExtent = true ∨ EQUAL pszCap OLCStringsAsUTF8 = true ∨
        (EQUAL pszCap OLCFastFeatureCount = true ∧ layer.m_opts.m_skip = false ∧
          layer.m_poAttrQuery = none ∧ layer.m_poFilterGeom = none)) →
      TestCapability layer pszCap = false) := by
  have hcond : (EQUAL pszCap OLCRandomRead || EQUAL pszCap OLCCurveGeometries ||
      EQUAL pszCap OLCMeasuredGeometries || EQUAL pszCap OLCZGeometries ||
      (EQUAL pszCap OLCFastFeatureCount && !layer.m_opts.m_skip &&
        layer.m_poAttrQuery.isNone && layer.m_poFilterGeom.isNone) ||
      EQUAL pszCap OLCFastGetExtent || EQUAL pszCap OLCStringsAsUTF8) = true ↔
      (EQUAL pszCap OLCRandomRead = true ∨ EQUAL pszCap OLCCurveGeometries = true ∨
        EQUAL pszCap OLCMeasuredGeometries = true ∨ EQUAL pszCap OLCZGeometries = true ∨
        EQUAL pszCap OLCFastGetExtent = true ∨ EQUAL pszCap OLCStringsAsUTF8 = true ∨
        (EQUAL pszCap OLCFastFeatureCount = true ∧ layer.m_opts.m_skip = false ∧
          layer.m_poAttrQuery = none ∧ layer.m_poFilterGeom = none)) := by
    simp only [Bool.or_eq_true, Bool.and_eq_true, Bool.not_eq_true', Option.isNone_iff_eq_none]
    tauto
  constructor
  · intro h
    simp only [TestCapability, hcond.2 h, if_true]
  · intro h
    have hc : ¬ ((EQUAL pszCap OLCRandomRead || EQUAL pszCap OLCCurveGeometries ||
      EQUAL pszCap OLCMeasuredGeometries || EQUAL pszCap OLCZGeometries ||
      (EQUAL pszCap OLCFastFeatureCount && !layer.m_opts.m_skip &&
        layer.m_poAttrQuery.isNone && layer.m_poFilterGeom.isNone) ||
      EQUAL pszCap OLCFastGetExtent || EQUAL pszCap OLCStringsAsUTF8) = true) :=
      fun hb => h (hcond.1 hb)
    simp only [TestCapability, if_neg hc]

/-- C15 at a concrete input: `randomread` in lower case is answered by the source layer. -/
theorem C15_test_capability_allow_list_witness :
    EQUAL randomreadName OLCRandomRead = true ∧
      TestCapability (GDALVectorGeomOpSetTypeAlgorithmLayer.create ogr twoFieldLayer multiOnly)
        randomreadName = twoFieldLayer.testCapability randomreadName :=
  ⟨by decide,
    (C15_test_capability_allow_list
      (GDALVectorGeomOpSetTypeAlgorithmLayer.create ogr twoFieldLayer multiOnly)
      randomreadName).1 (Or.inl (by decide))⟩

/-! ## C16 -/

/-- A successful `RunStep` leaves in `m_outputDataset` the layers of the layer loop, built with
the options as it leaves them. -/
theorem RunStep_success (api : OGRTypeApi) (self : GDALVectorGeomOpSetTypeAlgorithm)
    (hOk : (RunStep api self).1 = true) :
    ∃ m_opts, (RunStep api self).2.m_opts = m_opts ∧
      (RunStep api self).2.m_outputDataset =
        some (RunStep.addLayers api m_opts self.m_activeLayer self.m_inputDataset) := by
  by_cases hT : self.m_opts.m_type.isEmpty = true
  · exact ⟨self.m_opts, by simp [RunStep, hT], by simp [RunStep, hT]⟩
  · have hT2 : self.m_opts.m_type.isEmpty = false := by simpa using hT
    by_cases hF : anyShapeFlag self.m_opts = true
    · simp [RunStep, hT2, hF] at hOk
    · have hF2 : anyShapeFlag self.m_opts = false := by simpa using hF
      by_cases hbad : wkbFlatten api (api.OGRFromOGCGeomType self.m_opts.m_type) = wkbUnknown ∧
          ¬ STARTS_WITH_CI self.m_opts.m_type ['G','E','O','M','E','T','R','Y'] = true
      · simp [RunStep, hT2, hF2, hbad.1, hbad.2] at hOk
      · refine ⟨{ self.m_opts with m_eType := api.OGRFromOGCGeomType self.m_opts.m_type }, ?_, ?_⟩
        · simp only [RunStep, hT2, hF2]
          rw [if_neg hbad]
          simp
        · simp only [RunStep, hT2, hF2]
          rw [if_neg hbad]
          simp


/-- C16: when `RunStep` succeeds, the output dataset holds exactly one layer per source layer, in
the order of the source: for the source layer at position `i`, a converting layer over it
(built with the options as `RunStep` left them) when the active-layer name is empty or is its
description, and a passthrough layer over it otherwise. -/
theorem C16_one_output_layer_per_source_layer (api : OGRTypeApi)
    (self : GDALVectorGeomOpSetTypeAlgorithm) (hOk : (RunStep api self).1 = true) :
    ∃ outDS, (RunStep api self).2.m_outputDataset = some outDS ∧
      outDS.length = self.m_inputDataset.length ∧
      outDS.map Prod.fst = self.m_inputDataset ∧
      ∀ (i : Nat) (poSrcLayer : OGRLayer), self.m_inputDataset[i]? = some poSrcLayer →
        outDS[i]? = some (poSrcLayer,
          if self.m_activeLayer = [] ∨ self.m_activeLayer = poSrcLayer.description then
            .setType (GDALVectorGeomOpSetTypeAlgorithmLayer.create api poSrcLayer
              (RunStep api self).2.m_opts)
          else .passthrough poSrcLayer) := by
  have hadd : ∀ (m_opts : Options),
      (RunStep.addLayers api m_opts self.m_activeLayer self.m_inputDataset).length =
          self.m_inputDataset.length ∧
        (RunStep.addLayers api m_opts self.m_activeLayer self.m_inputDataset).map Prod.fst =
          self.m_inputDataset ∧
        ∀ (i : Nat) (poSrcLayer : OGRLayer), self.m_inputDataset[i]? = some poSrcLayer →
          (RunStep.addLayers api m_opts self.m_activeLayer self.m_inputDataset)[i]? =
            some (poSrcLayer,
              if self.m_activeLayer = [] ∨ self.m_activeLayer = poSrcLayer.description then
                .setType (GDALVectorGeomOpSetTypeAlgorithmLayer.create api poSrcLayer m_opts)
              else .passthrough poSrcLayer) := by
    intro m_opts
    refine ⟨by simp [RunStep.addLayers], ?_, ?_⟩
    · simp only [RunStep.addLayers, List.map_map]
      conv_rhs => rw [← List.map_id self.m_inputDataset]
      apply List.map_congr_left
      intro l _
      simp only [Function.comp]
      split <;> rfl
    · intro i l hl
      simp only [RunStep.addLayers, List.getElem?_map, hl, Option.map_some']
      by_cases hc : self.m_activeLayer = [] ∨ self.m_activeLayer = l.description
      · have hb : (self.m_activeLayer.isEmpty || self.m_activeLayer == l.description) = true := by
          simpa [List.isEmpty_iff] using hc
        simp [hb, hc]
      · have hb : (self.m_activeLayer.isEmpty || self.m_activeLayer == l.description) = false := by
          simpa [List.isEmpty_iff] using hc
        simp [hb, hc]
  obtain ⟨m_opts, hopts, hout⟩ := RunStep_success api self hOk
  rw [hopts, hout]
  exact ⟨_, rfl, hadd m_opts⟩

/-- C16 at a concrete input: with active layer `points`, the layer `points` gets a converting
layer and the layer `pairs` a passthrough layer, in this order. -/
theorem C16_one_output_layer_per_source_layer_witness :
    (RunStep ogr (.initial multiOnly pointsName [pointZLayer, twoFieldLayer])).1 = true ∧
      ∃ outDS, (RunStep ogr (.initial multiOnly pointsName
          [pointZLayer, twoFieldLayer])).2.m_outputDataset = some outDS ∧
        outDS.length = 2 ∧
        outDS[0]? = some (pointZLayer,
          .setType (GDALVectorGeomOpSetTypeAlgorithmLayer.create ogr pointZLayer multiOnly)) ∧
        outDS[1]? = some (twoFieldLayer, .passthrough twoFieldLayer) :=
  ⟨by decide, by
    obtain ⟨outDS, h1, h2, _, h4⟩ := C16_one_output_layer_per_source_layer ogr
      (.initial multiOnly pointsName [pointZLayer, twoFieldLayer]) (by decide)
    refine ⟨outDS, h1, h2, ?_, ?_⟩
    · have := h4 0 pointZLayer rfl
      rw [this]
      have hc : (GDALVectorGeomOpSetTypeAlgorithm.initial multiOnly pointsName
          [pointZLayer, twoFieldLayer]).m_activeLayer = [] ∨
          (GDALVectorGeomOpSetTypeAlgorithm.initial multiOnly pointsName
            [pointZLayer, twoFieldLayer]).m_activeLayer = pointZLayer.description := by decide
      rw [if_pos hc]
      rfl
    · have := h4 1 twoFieldLayer rfl
      rw [this]
      have hc : ¬ ((GDALVectorGeomOpSetTypeAlgorithm.initial multiOnly pointsName
          [pointZLayer, twoFieldLayer]).m_activeLayer = [] ∨
          (GDALVectorGeomOpSetTypeAlgorithm.initial multiOnly pointsName
            [pointZLayer, twoFieldLayer]).m_activeLayer = twoFieldLayer.description) := by decide
      rw [if_neg hc]⟩

/-! ## C17 -/

/-- C17: for a geometry selected for conversion, the loop body of `TranslateFeature` consults
the coercion at one argument only, the geometry and `ConvertType` of the type of that
geometry; with the coercion that returns the type it was asked for, the new geometry has that
type.  The target is not computed from the declared type: under `--multi` a point and a line
string get different targets.  When the type of the value is the source declared type of a
selected field and `m_featureGeomOnly` is off, the target is the declared type of that field in
the adapted definition. -/
theorem C17_target_from_value_type (api : OGRTypeApi) (m_opts : Options)
    (poGeomFieldDefn : OGRGeomFieldDefn) (poGeom : OGRGeometry) :
    (∀ forceTo1 forceTo2 : ForceTo,
        forceTo1 poGeom (ConvertType api m_opts poGeom.geometryType) =
          forceTo2 poGeom (ConvertType api m_opts poGeom.geometryType) →
        TranslateFeature.geomField api forceTo1 m_opts poGeomFieldDefn (some poGeom) =
          TranslateFeature.geomField api forceTo2 m_opts poGeomFieldDefn (some poGeom)) ∧
      (m_opts.m_layerOnly = false → geomFieldSelected m_opts poGeomFieldDefn = true →
        TranslateFeature.geomField api echoTarget m_opts poGeomFieldDefn (some poGeom) =
          .next (some { geometryType := ConvertType api m_opts poGeom.geometryType,
                        spatialReference := poGeomFieldDefn.spatialRef,
                        coordinates := poGeom.coordinates })) ∧
      ConvertType ogr multiOnly pointGeometry.geometryType ≠
        ConvertType ogr multiOnly lineGeometry.geometryType ∧
      (∀ (oSrcLayer : OGRLayer) (i : Nat) (d : OGRGeomFieldDefn),
        oSrcLayer.layerDefn.geomFields[i]? = some d →
        m_opts.m_featureGeomOnly = false → geomFieldSelected m_opts d = true →
        poGeom.geometryType = d.type →
        ∃ d', (GDALVectorGeomOpSetTypeAlgorithmLayer.create api oSrcLayer
            m_opts).m_poFeatureDefn.geomFields[i]? = some d' ∧
          ConvertType api m_opts poGeom.geometryType = d'.type) := by
  refine ⟨?_, ?_, by decide, ?_⟩
  · intro forceTo1 forceTo2 h
    simp only [TranslateFeature.geomField, h]
  · intro hLayerOnly hSel
    simp [TranslateFeature.geomField, hLayerOnly, hSel, echoTarget]
  · intro oSrcLayer i d hd hFeat hSel hType
    refine ⟨_, create_geomFields_getElem api oSrcLayer m_opts i d hd, ?_⟩
    simp [hFeat, hSel, hType]

/-- C17 at a concrete input: under `--multi --active-geometry geom2` the line string in `geom2`,
a field declared Point, is asked to become a multi-line-string, while the adapted definition
declares `geom2` as multi-point. -/
theorem C17_target_from_value_type_witness :
    (multiGeom2.m_layerOnly = false ∧
        geomFieldSelected multiGeom2 ⟨['g','e','o','m','2'], wkbMultiPoint, some 3857⟩ = true) ∧
      (GDALVectorGeomOpSetTypeAlgorithmLayer.create ogr twoFieldLayer
        multiGeom2).m_poFeatureDefn.geomFields[1]? =
          some ⟨['g','e','o','m','2'], wkbMultiPoint, some 3857⟩ ∧
      TranslateFeature.geomField ogr echoTarget multiGeom2
          ⟨['g','e','o','m','2'], wkbMultiPoint, some 3857⟩ (some lineGeometry) =
        .next (some { geometryType := ConvertType ogr multiGeom2 lineGeometry.geometryType,
                      spatialReference := some 3857,
                      coordinates := lineGeometry.coordinates }) ∧
      ConvertType ogr multiGeom2 lineGeometry.geometryType = wkbMultiLineString :=
  ⟨⟨rfl, by decide⟩, by decide,
    (C17_target_from_value_type ogr multiGeom2
      ⟨['g','e','o','m','2'], wkbMultiPoint, some 3857⟩ lineGeometry).2.1 rfl (by decide),
    by decide⟩

/-! ## C18 -/

/-- C18: a null geometry field is null in the feature `TranslateFeature` returns, whatever the
coercion; and a feature in which no geometry field is both non-null and selected for
conversion is returned, with `m_skip` set or not, and is the same feature for every coercion:
the coercion is not consulted. -/
theorem C18_null_geometry_and_unselected_feature (api : OGRTypeApi)
    (layer : GDALVectorGeomOpSetTypeAlgorithmLayer) (poSrcFeature : OGRFeature) :
    (∀ (forceTo : ForceTo) (out : OGRFeature),
        TranslateFeature api forceTo layer poSrcFeature = .feature out →
        ∀ (i : Nat), i < layer.m_poFeatureDefn.geomFields.length →
          poSrcFeature.geometries[i]? = some none → out.geometries[i]? = some none) ∧
      ((∀ p ∈ layer.m_poFeatureDefn.geomFields.zip poSrcFeature.geometries, ∀ g,
          p.2 = some g →
          ¬ (layer.m_opts.m_layerOnly = false ∧ geomFieldSelected layer.m_opts p.1 = true)) →
        ∃ out, ∀ forceTo : ForceTo,
          TranslateFeature api forceTo layer poSrcFeature = .feature out) := by
  constructor
  · intro forceTo out h i hi hg
    obtain ⟨geoms, hloop, rfl⟩ :=
      (TranslateFeature_feature_iff api forceTo layer poSrcFeature out).1 h
    obtain ⟨_, hget⟩ := loop_inr_getElem api forceTo layer.m_opts _ _ _ hloop
    obtain ⟨n, hn, ho⟩ := hget i (layer.m_poFeatureDefn.geomFields[i]) none
      (List.getElem?_eq_getElem hi) hg
    cases hn
    exact ho
  · intro hNone
    have hstep : ∀ forceTo : ForceTo,
        ∀ p ∈ layer.m_poFeatureDefn.geomFields.zip poSrcFeature.geometries,
          TranslateFeature.geomField api forceTo layer.m_opts p.1 p.2 =
            TranslateFeature.geomField api failCoercion layer.m_opts p.1 p.2 ∧
          ∃ n, TranslateFeature.geomField api failCoercion layer.m_opts p.1 p.2 = .next n := by
      intro forceTo p hp
      cases hslot : p.2 with
      | none => exact ⟨rfl, none, rfl⟩
      | some g =>
        have hnot := hNone p hp g hslot
        rw [(geomField_passthrough api forceTo layer.m_opts p.1).2 g hnot,
          (geomField_passthrough api failCoercion layer.m_opts p.1).2 g hnot]
        exact ⟨rfl, _, rfl⟩
    obtain ⟨geoms, hg⟩ := loop_all_next api failCoercion layer.m_opts _ _
      (fun p hp => (hstep failCoercion p hp).2)
    refine ⟨{ poSrcFeature with defn := layer.m_poFeatureDefn, geometries := geoms }, ?_⟩
    intro forceTo
    apply (TranslateFeature_feature_iff api forceTo layer poSrcFeature _).2
    refine ⟨geoms, ?_, rfl⟩
    rw [loop_congr api forceTo failCoercion layer.m_opts _ _ (fun p hp => (hstep forceTo p hp).1)]
    exact hg

/-- C18 at a concrete input: with `--multi --skip --active-geometry geom2` and a coercion that
always fails, the feature with a point in `geom1` and no geometry in `geom2` is returned, and
`geom2` is still null. -/
theorem C18_null_geometry_and_unselected_feature_witness :
    multiSkipGeom2.m_skip = true ∧
      ∃ out, (∀ forceTo : ForceTo, TranslateFeature ogr forceTo
          (GDALVectorGeomOpSetTypeAlgorithmLayer.create ogr twoFieldLayer multiSkipGeom2)
          twoFieldNullFeature = .feature out) ∧
        out.geometries[1]? = some none :=
  ⟨rfl, by
    obtain ⟨out, hout⟩ := (C18_null_geometry_and_unselected_feature ogr
      (GDALVectorGeomOpSetTypeAlgorithmLayer.create ogr twoFieldLayer multiSkipGeom2)
      twoFieldNullFeature).2 (by decide)
    exact ⟨out, hout, (C18_null_geometry_and_unselected_feature ogr
      (GDALVectorGeomOpSetTypeAlgorithmLayer.create ogr twoFieldLayer multiSkipGeom2)
      twoFieldNullFeature).1 failCoercion out (hout failCoercion) 1 (by decide) (by decide)⟩⟩

/-! ## C19 -/

/-- C19: with an empty type string and none of the eight shape and dimension flags,
`ConvertType` is the identity on every type, whatever the library functions; so the adapted
definition is the source definition, and the target asked of the coercion for a geometry is
the type of that geometry. -/
theorem C19_no_flag_identity (api : OGRTypeApi) (m_opts : Options)
    (hType : m_opts.m_type = [])
    (hNoFlag : m_opts.m_multi = false ∧ m_opts.m_single = false ∧ m_opts.m_linear = false ∧
      m_opts.m_curve = false ∧ m_opts.m_xy = false ∧ m_opts.m_xyz = false ∧
      m_opts.m_xym = false ∧ m_opts.m_xyzm = false) :
    (∀ eType, ConvertType api m_opts eType = eType) ∧
      (∀ oSrcLayer : OGRLayer,
        (GDALVectorGeomOpSetTypeAlgorithmLayer.create api oSrcLayer m_opts).m_poFeatureDefn =
          oSrcLayer.layerDefn) ∧
      (∀ (poGeomFieldDefn : OGRGeomFieldDefn) (poGeom : OGRGeometry),
        m_opts.m_layerOnly = false → geomFieldSelected m_opts poGeomFieldDefn = true →
        TranslateFeature.geomField api echoTarget m_opts poGeomFieldDefn (some poGeom) =
          .next (some { poGeom with spatialReference := poGeomFieldDefn.spatialRef })) := by
  obtain ⟨h1, h2, h3, h4, h5, h6, h7, h8⟩ := hNoFlag
  have hid : ∀ eType, ConvertType api m_opts eType = eType := by
    intro eType
    simp [ConvertType, ConvertType.cardinality, ConvertType.curvature, ConvertType.dimension,
      hType, h1, h2, h3, h4, h5, h6, h7, h8]
  refine ⟨hid, ?_, ?_⟩
  · intro oSrcLayer
    have hmap : (oSrcLayer.layerDefn.geomFields.map fun poGeomFieldDefn =>
        if geomFieldSelected m_opts poGeomFieldDefn then
          { poGeomFieldDefn with type := ConvertType api m_opts poGeomFieldDefn.type }
        else poGeomFieldDefn) = oSrcLayer.layerDefn.geomFields := by
      conv_rhs => rw [← List.map_id oSrcLayer.layerDefn.geomFields]
      apply List.map_congr_left
      intro d _
      rw [hid]
      split <;> rfl
    cases hf : m_opts.m_featureGeomOnly
    · simp only [GDALVectorGeomOpSetTypeAlgorithmLayer.create, hf, Bool.not_false, if_true, hmap]
    · simp [GDALVectorGeomOpSetTypeAlgorithmLayer.create, hf]
  · intro d g hLayerOnly hSel
    simp [TranslateFeature.geomField, hLayerOnly, hSel, echoTarget, hid]

/-- C19 at a concrete input: the default options leave Triangle ZM and the definition of the
two-field layer as they are. -/
theorem C19_no_flag_identity_witness :
    Options.default.m_type = [] ∧
      ConvertType ogr Options.default (OGR_GT_SetZ (OGR_GT_SetM wkbTriangle)) =
        OGR_GT_SetZ (OGR_GT_SetM wkbTriangle) ∧
      (GDALVectorGeomOpSetTypeAlgorithmLayer.create ogr twoFieldLayer
        Options.default).m_poFeatureDefn = twoFieldLayer.layerDefn :=
  ⟨rfl,
    (C19_no_flag_identity ogr Options.default rfl
      ⟨rfl, rfl, rfl, rfl, rfl, rfl, rfl, rfl⟩).1 _,
    (C19_no_flag_identity ogr Options.default rfl
      ⟨rfl, rfl, rfl, rfl, rfl, rfl, rfl, rfl⟩).2.1 twoFieldLayer⟩

end GdalSetType
